import Mathlib

/-!
Verification development for the smartctl text (ATA) output parser
(`src/applib/smartctl_text_ata_parser.cpp`).

The parser code is shallowly embedded below: strings are `List Char`,
`hz::ExpectedVoid<SmartctlParserError>` is `Except SmartctlParserError Unit`,
the property accumulator is an explicit `List StorageProperty` that each
function returns (append-only, in source order).  The `app_regex_*` helpers
wrap `std::regex` in ECMAScript mode; they are embedded as a small fueled
backtracking matcher with leftmost search and greedy priority, the same
observable semantics.  Helper headers that are referenced but absent from
the sources (`hz/string_algo.h`, `hz/string_num.h`, `storage_property.h`,
`smartctl_version_parser.h`, `smartctl_text_parser_helper.h`) are modelled
from the specification; each such definition is marked in its doc comment.
-/

set_option maxRecDepth 1000000
set_option maxHeartbeats 4000000

namespace GsmartModel

/-! ### String helpers (hz/string_algo.h) -/

/-- Modelled from the spec: default whitespace set trimmed by
`hz::string_trim` (space, tab, carriage return, newline). -/
def hzWhitespace : List Char := [' ', '\t', '\r', '\n']

def trimLeftOn (cs : List Char) : List Char → List Char
  | [] => []
  | c :: r => if c ∈ cs then trimLeftOn cs r else c :: r

def trimRightOn (cs : List Char) (s : List Char) : List Char :=
  (trimLeftOn cs s.reverse).reverse

def trimOn (cs : List Char) (s : List Char) : List Char :=
  trimRightOn cs (trimLeftOn cs s)

/-- `hz::string_trim_copy` with the default whitespace set. -/
def hzTrim (s : List Char) : List Char := trimOn hzWhitespace s

/-- Modelled from the spec: line-ending unification (`hz::string_any_to_unix_copy`)
converts DOS (`\r\n`) and old-Mac (`\r`) line endings to `\n`. -/
def anyToUnix : List Char → List Char
  | [] => []
  | '\r' :: '\n' :: r => '\n' :: anyToUnix r
  | '\r' :: r => '\n' :: anyToUnix r
  | c :: r => c :: anyToUnix r

def splitCharGo (sep : Char) (cur : List Char) : List Char → List (List Char)
  | [] => [cur.reverse]
  | c :: r =>
    if c = sep then cur.reverse :: splitCharGo sep [] r
    else splitCharGo sep (c :: cur) r

/-- `hz::string_split(s, sep, vec, skip_empty)` with a character separator. -/
def splitChar (sep : Char) (skipEmpty : Bool) (s : List Char) : List (List Char) :=
  let parts := splitCharGo sep [] s
  if skipEmpty then parts.filter (fun p => ¬ p.isEmpty) else parts

def splitStrGo (sep : List Char) : Nat → List Char → List Char → List (List Char)
  | 0, cur, s => [cur.reverse ++ s]
  | fuel + 1, cur, s =>
    match s with
    | [] => [cur.reverse]
    | c :: r =>
      if sep.isPrefixOf s then cur.reverse :: splitStrGo sep fuel [] (s.drop sep.length)
      else splitStrGo sep fuel (c :: cur) r

/-- `hz::string_split(s, sep, vec, skip_empty)` with a string separator. -/
def splitStr (sep : List Char) (skipEmpty : Bool) (s : List Char) : List (List Char) :=
  let parts := splitStrGo sep (s.length + 1) [] s
  if skipEmpty then parts.filter (fun p => ¬ p.isEmpty) else parts

/-- `hz::string_erase_right_copy(s, suffix)`: remove `suffix` from the right
end if present. -/
def eraseRight (s suffix : List Char) : List Char :=
  if suffix.isSuffixOf s then s.take (s.length - suffix.length) else s

/-- `hz::string_replace_chars_copy(s, what, to)`: replace each character
occurring in `what` with `to`. -/
def replaceCharsWith (what : List Char) (tc : Char) (s : List Char) : List Char :=
  s.map (fun c => if c ∈ what then tc else c)

/-- `hz::string_remove_adjacent_duplicates_copy(s, c)`: collapse runs of the
character `c` to a single occurrence. -/
def removeAdjacentDup (c : Char) : List Char → List Char
  | [] => []
  | [a] => [a]
  | a :: b :: r =>
    if a = c ∧ b = c then removeAdjacentDup c (b :: r)
    else a :: removeAdjacentDup c (b :: r)

/-- Find the first index at or after `start` where `needle` occurs in `hay`
(`std::string::find`). -/
def strFindGo (hay needle : List Char) : Nat → Nat → Option Nat
  | 0, _ => none
  | fuel + 1, pos =>
    let rest := hay.drop pos
    if needle.isPrefixOf rest then some pos
    else match rest with
      | [] => none
      | _ :: _ => strFindGo hay needle fuel (pos + 1)

def strFind (hay needle : List Char) (start : Nat) : Option Nat :=
  if start ≤ hay.length then strFindGo hay needle (hay.length + 1 - start) start
  else none

/-! ### Integer parsing (hz/string_num.h) -/

def digitVal (c : Char) : Option Nat :=
  if '0' ≤ c ∧ c ≤ '9' then some (c.toNat - '0'.toNat)
  else if 'a' ≤ c ∧ c ≤ 'z' then some (c.toNat - 'a'.toNat + 10)
  else if 'A' ≤ c ∧ c ≤ 'Z' then some (c.toNat - 'A'.toNat + 10)
  else none

def takeDigits (base : Nat) : Nat → Bool → List Char → (Nat × Bool × List Char)
  | acc, got, [] => (acc, got, [])
  | acc, got, c :: r =>
    match digitVal c with
    | some d => if d < base then takeDigits base (acc * base + d) true r else (acc, got, c :: r)
    | none => (acc, got, c :: r)

/-- Modelled from the spec: `strtoll`-style integer scan used by
`hz::string_is_numeric_nolocale`: optional leading whitespace and sign,
base auto-detection when `base = 0` (`0x` prefix → 16, leading `0` → 8),
optional `0x` prefix when `base = 16`.  Returns the value and the unparsed
remainder, or `none` when no digits were consumed. -/
def parseIntCore (s0 : List Char) (base0 : Nat) : Option (Int × List Char) :=
  let s0 := trimLeftOn hzWhitespace s0
  let (neg, s1) :=
    match s0 with
    | '-' :: r => (true, r)
    | '+' :: r => (false, r)
    | _ => (false, s0)
  let hexStart : List Char → Bool := fun l =>
    match l with
    | '0' :: x :: d :: _ =>
      (x = 'x' || x = 'X') && (match digitVal d with | some v => decide (v < 16) | none => false)
    | _ => false
  let (base, s2) : Nat × List Char :=
    if base0 = 0 then
      if hexStart s1 then (16, s1.drop 2)
      else match s1 with
        | '0' :: _ => (8, s1)
        | _ => (10, s1)
    else if base0 = 16 then
      if hexStart s1 then (16, s1.drop 2) else (16, s1)
    else (base0, s1)
  let (n, got, rest) := takeDigits base 0 false s2
  if got then some ((if neg then -(n : Int) else (n : Int)), rest) else none

/-- `hz::string_is_numeric_nolocale<T>(s, out, strict, base)`: returns the
parsed value (within the range `[lo, hi]` of the destination C++ type) or
`none`.  With `strict = true` the whole string must be consumed. -/
def stringIsNumeric (s : List Char) (strict : Bool) (base : Nat) (lo hi : Int) : Option Int :=
  match parseIntCore s base with
  | none => none
  | some (v, rest) =>
    if strict ∧ ¬ rest.isEmpty then none
    else if v < lo ∨ hi < v then none
    else some v

def int64Lo : Int := -(2 ^ 63)
def int64Hi : Int := 2 ^ 63 - 1

/-- `hz::string_to_number_nolocale<int64_t>`: parsed value, or 0 on failure. -/
def stringToNumberInt64 (s : List Char) (strict : Bool) : Int :=
  (stringIsNumeric s strict 0 int64Lo int64Hi).getD 0

/-! ### Regex engine (app_regex.h over std::regex, ECMAScript semantics) -/

structure RxFlags where
  ci : Bool
  ml : Bool
deriving DecidableEq

def lowerCh (c : Char) : Char :=
  if 'A' ≤ c ∧ c ≤ 'Z' then Char.ofNat (c.toNat + 32) else c

def upperCh (c : Char) : Char :=
  if 'a' ≤ c ∧ c ≤ 'z' then Char.ofNat (c.toNat - 32) else c

def chMatch (ci : Bool) (pat actual : Char) : Bool :=
  if ci then lowerCh pat = lowerCh actual else pat = actual

inductive RTerm where
  | eps
  | lit (c : Char)
  | anyCh
  | cls (neg : Bool) (ranges : List (Char × Char))
  | bol
  | eol
  | seq (a b : RTerm)
  | alt (a b : RTerm)
  | star (a : RTerm)
  | opt (a : RTerm)
  | group (idx : Nat) (a : RTerm)

def clsHas (ranges : List (Char × Char)) (c : Char) : Bool :=
  ranges.any (fun p => p.1 ≤ c ∧ c ≤ p.2)

def clsMatch (ci neg : Bool) (ranges : List (Char × Char)) (c : Char) : Bool :=
  let hit := clsHas ranges c ∨ (ci ∧ (clsHas ranges (lowerCh c) ∨ clsHas ranges (upperCh c)))
  if neg then ¬ hit else hit

/-- Matcher state: previously consumed character (for `^`), remaining input,
captures collected so far (latest first). -/
structure MSt where
  prev : Option Char
  rest : List Char
  caps : List (Nat × List Char)

/-- Backtracking matcher in continuation-passing style.  Alternatives and
greedy quantifiers are tried in ECMAScript priority order; the first
success wins.  `fuel` bounds star unfolding. -/
def mRun (fl : RxFlags) : Nat → RTerm → MSt → (MSt → Option MSt) → Option MSt
  | 0, _, _, _ => none
  | fuel + 1, t, st, k =>
    match t with
    | .eps => k st
    | .lit c =>
      match st.rest with
      | [] => none
      | c' :: r => if chMatch fl.ci c c' then k ⟨some c', r, st.caps⟩ else none
    | .anyCh =>
      match st.rest with
      | [] => none
      | c' :: r => if c' = '\n' then none else k ⟨some c', r, st.caps⟩
    | .cls neg ranges =>
      match st.rest with
      | [] => none
      | c' :: r => if clsMatch fl.ci neg ranges c' then k ⟨some c', r, st.caps⟩ else none
    | .bol =>
      (match st.prev with
       | none => k st
       | some p => if fl.ml ∧ p = '\n' then k st else none)
    | .eol =>
      (match st.rest with
       | [] => k st
       | c :: _ => if fl.ml ∧ c = '\n' then k st else none)
    | .seq a b => mRun fl fuel a st (fun st' => mRun fl fuel b st' k)
    | .alt a b =>
      (match mRun fl fuel a st k with
       | some r => some r
       | none => mRun fl fuel b st k)
    | .opt a =>
      (match mRun fl fuel a st k with
       | some r => some r
       | none => k st)
    | .star a =>
      (match mRun fl fuel a st (fun st' => mRun fl fuel (.star a) st' k) with
       | some r => some r
       | none => k st)
    | .group n a =>
      let len0 := st.rest.length
      mRun fl fuel a st (fun st' =>
        k ⟨st'.prev, st'.rest, (n, st.rest.take (len0 - st'.rest.length)) :: st'.caps⟩)

def rtSize : RTerm → Nat
  | .eps | .lit _ | .anyCh | .cls _ _ | .bol | .eol => 1
  | .seq a b | .alt a b => rtSize a + rtSize b + 1
  | .star a | .opt a | .group _ a => rtSize a + 1

def fuelFor (t : RTerm) (s : List Char) : Nat :=
  4 * (s.length + 2) * (rtSize t + 2) + 64

/-- Try to match `t` at the current position; on success return the matched
prefix and the final state. -/
def matchFrom (fl : RxFlags) (t : RTerm) (prev : Option Char) (s : List Char) :
    Option (List Char × MSt) :=
  match mRun fl (fuelFor t s) t ⟨prev, s, []⟩ some with
  | none => none
  | some st' => some (s.take (s.length - st'.rest.length), st')

/-- Leftmost search (`std::regex_search`): try each position left to right.
Returns `(pre, matched, caps, prevAfter, rest)`. -/
def searchGo (fl : RxFlags) (t : RTerm) :
    Nat → Option Char → List Char → List Char →
    Option (List Char × List Char × List (Nat × List Char) × Option Char × List Char)
  | 0, _, _, _ => none
  | fuel + 1, prev, s, preRev =>
    match matchFrom fl t prev s with
    | some (matched, st') => some (preRev.reverse, matched, st'.caps, st'.prev, st'.rest)
    | none =>
      match s with
      | [] => none
      | c :: r => searchGo fl t fuel (some c) r (c :: preRev)

def rxSearch (fl : RxFlags) (t : RTerm) (s : List Char) :
    Option (List Char × List Char × List (Nat × List Char) × Option Char × List Char) :=
  searchGo fl t (s.length + 1) none s []

/-- `app_regex_partial_match` as a test. -/
def rxTest (fl : RxFlags) (t : RTerm) (s : List Char) : Bool :=
  (rxSearch fl t s).isSome

def capGet (caps : List (Nat × List Char)) (n : Nat) : List Char :=
  match caps.find? (fun p => p.1 = n) with
  | some p => p.2
  | none => []

/-- `app_regex_partial_match` with capture extraction: the capture list of
the leftmost match. -/
def rxCaps (fl : RxFlags) (t : RTerm) (s : List Char) : Option (List (Nat × List Char)) :=
  match rxSearch fl t s with
  | none => none
  | some (_, _, caps, _, _) => some caps

/-- `app_regex_full_match` (`std::regex_match`): the whole string must match. -/
def rxFull (fl : RxFlags) (t : RTerm) (s : List Char) : Option (List (Nat × List Char)) :=
  match mRun fl (fuelFor t s) t ⟨none, s, []⟩
      (fun st => if st.rest.isEmpty then some st else none) with
  | none => none
  | some st' => some st'.caps

/-- Replacement-string expansion: `\1` … `\9` are capture references
(`app_regex_replace` uses backslash references). -/
def expandRepl : List Char → List (Nat × List Char) → List Char
  | [], _ => []
  | '\\' :: c :: r, caps =>
    if '0' ≤ c ∧ c ≤ '9' then capGet caps (c.toNat - '0'.toNat) ++ expandRepl r caps
    else '\\' :: c :: expandRepl r caps
  | c :: r, caps => c :: expandRepl r caps

/-- `app_regex_replace` / `std::regex_replace`: replace every leftmost
non-overlapping match, continuing after each match end (no rescanning of the
produced text).  An empty match copies one character and moves on. -/
def replaceGo (fl : RxFlags) (t : RTerm) (repl : List Char) :
    Nat → Option Char → List Char → List Char
  | 0, _, s => s
  | fuel + 1, prev, s =>
    match searchGo fl t (s.length + 1) prev s [] with
    | none => s
    | some (pre, matched, caps, prevAft, rest) =>
      pre ++ expandRepl repl caps ++
        (if matched.isEmpty then
          match rest with
          | [] => []
          | c :: r => c :: replaceGo fl t repl fuel (some c) r
        else replaceGo fl t repl fuel prevAft rest)

def rxReplaceAll (fl : RxFlags) (t : RTerm) (repl : List Char) (s : List Char) : List Char :=
  replaceGo fl t repl (s.length + 1) none s

/-- All leftmost non-overlapping matches (`std::sregex_iterator`), returning
each match's capture list (capture 0 is the whole match). -/
def allMatchesGo (fl : RxFlags) (t : RTerm) :
    Nat → Option Char → List Char → List (List (Nat × List Char))
  | 0, _, _ => []
  | fuel + 1, prev, s =>
    match searchGo fl t (s.length + 1) prev s [] with
    | none => []
    | some (_, matched, caps, prevAft, rest) =>
      ((0, matched) :: caps) ::
        (if matched.isEmpty then
          match rest with
          | [] => []
          | c :: r => allMatchesGo fl t fuel (some c) r
        else allMatchesGo fl t fuel prevAft rest)

def rxAllMatches (fl : RxFlags) (t : RTerm) (s : List Char) : List (List (Nat × List Char)) :=
  allMatchesGo fl t (s.length + 1) none s

/-! ### Pattern combinators -/

def rseq (l : List RTerm) : RTerm := l.foldr .seq .eps

def rstr (s : String) : RTerm := rseq (s.data.map RTerm.lit)

def rchs (s : String) : RTerm := .cls false (s.data.map fun c => (c, c))

def rnchs (s : String) : RTerm := .cls true (s.data.map fun c => (c, c))

def rplus (a : RTerm) : RTerm := .seq a (.star a)

/-- `{2,}` -/
def rrep2 (a : RTerm) : RTerm := .seq a (rplus a)

/-- `{3,}` -/
def rrep3 (a : RTerm) : RTerm := .seq a (.seq a (rplus a))

def rdig : RTerm := .cls false [('0', '9')]

/-- `[ \t]+` -/
def rsp1 : RTerm := rplus (rchs " \t")

/-- `[ \t]*` -/
def rsp0 : RTerm := .star (rchs " \t")

/-- `\S` (not whitespace). -/
def rNotWs : RTerm :=
  .cls true [(' ', ' '), ('\t', '\t'), ('\n', '\n'), ('\r', '\r'),
    (Char.ofNat 11, Char.ofNat 12)]

/-- `\s` (whitespace). -/
def rWs : RTerm :=
  .cls false [(' ', ' '), ('\t', '\t'), ('\n', '\n'), ('\r', '\r'),
    (Char.ofNat 11, Char.ofNat 12)]

/-- `[\s\S]` (any character, newline included). -/
def rAnyNL : RTerm := .cls true []

/-- Flags "mi". -/
def fMI : RxFlags := ⟨true, true⟩

/-- Flags "m" only. -/
def fM : RxFlags := ⟨false, true⟩

/-- Flags "i" only. -/
def fI : RxFlags := ⟨true, false⟩

/-- No flags. -/
def fNone : RxFlags := ⟨false, false⟩

/-! ### Data model (storage_property.h, smartctl_parser_types.h)

`SmartctlParserError` and the property record types are declared in headers
absent from src/; the error taxonomy is modelled from spec §7 and the record
fields from spec §3 together with every use in the parser source. -/

/-- Modelled from the spec (§7): the error taxonomy of the parser. -/
inductive SmartctlParserError where
  | EmptyInput
  | NoVersion
  | IncompatibleVersion
  | NoSection
  | UnknownSection
  | NoSubsectionsParsed
  | DataError
  | InternalError
deriving DecidableEq, Repr

/-- `hz::ExpectedVoid<SmartctlParserError>`. -/
abbrev ExpVoid := Except SmartctlParserError Unit

def expOk : ExpVoid := Except.ok ()

/-- `expected::has_value()`. -/
def ExpVoid.hasValue : ExpVoid → Bool
  | Except.ok _ => true
  | Except.error _ => false

instance : DecidableEq (Except SmartctlParserError Unit) := fun x y =>
  match x, y with
  | .ok (), .ok () => isTrue rfl
  | .error a, .error b =>
    if h : a = b then isTrue (by rw [h])
    else isFalse (fun hh => h (Except.error.inj hh))
  | .ok (), .error _ => isFalse (fun hh => Except.noConfusion hh)
  | .error _, .ok () => isFalse (fun hh => Except.noConfusion hh)

/-- Modelled from the spec (§3): the enumerated property section category. -/
inductive StoragePropertySection where
  | Unknown
  | Info
  | OverallHealth
  | Capabilities
  | AtaAttributes
  | DirectoryLog
  | AtaErrorLog
  | SelftestLog
  | SelectiveSelftestLog
  | TemperatureLog
  | ErcLog
  | Statistics
  | PhyLog
deriving DecidableEq, Repr

inductive AttributeType where
  | Prefail
  | OldAge
  | Unknown
deriving DecidableEq, Repr

inductive UpdateType where
  | Always
  | Offline
  | Unknown
deriving DecidableEq, Repr

inductive FailTime where
  | None
  | Past
  | Now
  | Unknown
deriving DecidableEq, Repr

/-- `AtaStorageAttribute` (spec §3: AttributeRecord). -/
structure AtaStorageAttribute where
  id : Int := -1
  flag : List Char := []
  value : Option Int := none
  worst : Option Int := none
  threshold : Option Int := none
  attr_type : AttributeType := .Unknown
  update_type : UpdateType := .Unknown
  when_failed : FailTime := .Unknown
  raw_value : List Char := []
  raw_value_int : Int := 0
deriving DecidableEq, Repr

inductive SelftestStatus where
  | Unknown
  | CompletedNoError
  | AbortedByHost
  | Interrupted
  | FatalOrUnknown
  | ComplUnknownFailure
  | ComplElectricalFailure
  | ComplServoFailure
  | ComplReadFailure
  | ComplHandlingDamage
  | InProgress
  | Reserved
deriving DecidableEq, Repr

/-- `AtaStorageSelftestEntry` (spec §3: SelfTestEntry). -/
structure AtaStorageSelftestEntry where
  test_num : Int := 0
  type : List Char := []
  status_str : List Char := []
  status : SelftestStatus := .Unknown
  remaining_percent : Int := -1
  lifetime_hours : Int := 0
  lba_of_first_error : List Char := []
deriving DecidableEq, Repr

/-- `AtaStorageErrorBlock` (spec §3: ErrorLogEntry). -/
structure AtaStorageErrorBlock where
  error_num : Int := 0
  lifetime_hours : Int := 0
  device_state : List Char := []
  reported_types : List (List Char) := []
  type_more_info : List Char := []
deriving DecidableEq, Repr

/-- `AtaStorageStatistic` (spec §3: StatisticEntry). -/
structure AtaStorageStatistic where
  is_header : Bool := false
  flags : List Char := []
  value : List Char := []
  value_int : Int := 0
  page : Int := 0
  offset : Int := 0
deriving DecidableEq, Repr

/-- `AtaStorageTextCapability` (spec §3: CapabilityRecord). -/
structure AtaStorageTextCapability where
  reported_flag_value : List Char := []
  flag_value : Nat := 0
  reported_strvalue : List Char := []
  strvalues : List (List Char) := []
deriving DecidableEq, Repr

/-- Modelled from the spec (§3): `PropertyRecord.value` is a closed tagged
variant; exactly one alternative is populated. -/
inductive PropValue where
  | empty
  | str (s : List Char)
  | int (i : Int)
  | boolv (b : Bool)
  | seconds (n : Int)
  | attr (a : AtaStorageAttribute)
  | selftest (e : AtaStorageSelftestEntry)
  | errorBlock (e : AtaStorageErrorBlock)
  | statistic (e : AtaStorageStatistic)
  | capability (c : AtaStorageTextCapability)
deriving DecidableEq, Repr

/-- `StorageProperty` (spec §3: PropertyRecord). -/
structure StorageProperty where
  sect : StoragePropertySection := .Unknown
  generic_name : List Char := []
  displayable_name : List Char := []
  reported_name : List Char := []
  reported_value : List Char := []
  readable_value : List Char := []
  value : PropValue := .empty
  show_in_ui : Bool := true
deriving DecidableEq, Repr

/-- Modelled from the spec (§3): `StorageProperty::set_name(generic,
displayable, reported)` — the first argument is the stable dotted generic
identifier, the second the human label, the third the identity as it
appeared in the source text (defaults to empty). -/
def StorageProperty.setName (p : StorageProperty) (g : List Char)
    (d : List Char := []) (r : List Char := []) : StorageProperty :=
  { p with generic_name := g, displayable_name := d, reported_name := r }

/-- `StorageProperty::empty()` — modelled from the spec (§3): a record with
`value` unset is considered incomplete. -/
def StorageProperty.isEmptyProp (p : StorageProperty) : Bool :=
  decide (p.value = PropValue.empty)

/-! ### Input normalization (`SmartctlTextAtaParser::parse`, output fixing) -/

/-- `/\nWarning! SMART (.+) Structure error: invalid SMART checksum\.$/mi` -/
def reChecksum : RTerm :=
  rseq [.lit '\n', rstr "Warning! SMART ", .group 1 (rplus .anyCh),
    rstr " Structure error: invalid SMART checksum.", .eol]

/-- `/\n.*May need -F samsung or -F samsung2 enabled; see manual for details\.$/mi` -/
def reSamsung : RTerm :=
  rseq [.lit '\n', .star .anyCh,
    rstr "May need -F samsung or -F samsung2 enabled; see manual for details.", .eol]

/-- `/^(Warning: ATA error count.*\n)\n/mi` -/
def reAtaErrCount : RTerm :=
  rseq [.bol, .group 1 (rseq [rstr "Warning: ATA error count", .star .anyCh, .lit '\n']),
    .lit '\n']

/-- `/^(Warning: device does not support Error Logging)$/mi` -/
def reWarnErrLog : RTerm :=
  rseq [.bol, .group 1 (rstr "Warning: device does not support Error Logging"), .eol]

/-- `/^(Warning: device does not support Self Test Logging)$/mi` -/
def reWarnSelftestLog : RTerm :=
  rseq [.bol, .group 1 (rstr "Warning: device does not support Self Test Logging"), .eol]

/-- `/^(Device does not support Selective Self Tests\/Logging)$/mi` -/
def reWarnSelective : RTerm :=
  rseq [.bol, .group 1 (rstr "Device does not support Selective Self Tests/Logging"), .eol]

/-- `/^(Warning: device does not support SCT Commands)$/mi` -/
def reWarnSct : RTerm :=
  rseq [.bol, .group 1 (rstr "Warning: device does not support SCT Commands"), .eol]

/-- `/^(ATA_READ_LOG_EXT \([^)]+\) failed: .*)$/mi` -/
def reDelReadLogExt : RTerm :=
  rseq [.bol, .group 1 (rseq [rstr "ATA_READ_LOG_EXT (", rplus (rnchs ")"),
    rstr ") failed: ", .star .anyCh]), .eol]

/-- `/^((?:Error )?SMART WRITE LOG does not return COUNT and LBA_LOW register)$/mi` -/
def reDelWriteLog : RTerm :=
  rseq [.bol, .group 1 (rseq [.opt (rstr "Error "),
    rstr "SMART WRITE LOG does not return COUNT and LBA_LOW register"]), .eol]

/-- `/^(Read SCT Status failed: .*)$/mi` -/
def reDelReadSctStatus : RTerm :=
  rseq [.bol, .group 1 (rseq [rstr "Read SCT Status failed: ", .star .anyCh]), .eol]

/-- `/^(Unknown SCT Status format version .*)$/mi` -/
def reDelUnknownSctVer : RTerm :=
  rseq [.bol, .group 1 (rseq [rstr "Unknown SCT Status format version ", .star .anyCh]), .eol]

/-- `/^(Read SCT Data Table failed: .*)$/mi` -/
def reDelReadSctData : RTerm :=
  rseq [.bol, .group 1 (rseq [rstr "Read SCT Data Table failed: ", .star .anyCh]), .eol]

/-- `/^(Write SCT Data Table failed: .*)$/mi` -/
def reDelWriteSctData : RTerm :=
  rseq [.bol, .group 1 (rseq [rstr "Write SCT Data Table failed: ", .star .anyCh]), .eol]

/-- `/^(Unexpected SCT status .*\))$/mi` -/
def reDelUnexpectedSct : RTerm :=
  rseq [.bol, .group 1 (rseq [rstr "Unexpected SCT status ", .star .anyCh, .lit ')']), .eol]

/-- One conditional rewrite of the kind
`if (app_regex_partial_match(re, s, &match)) app_regex_replace(re, f match, s)`:
apply the global replacement only when the pattern occurs, the replacement
text built from the first capture. -/
def condReplace (t : RTerm) (mk : List Char → List Char) (s : List Char) : List Char :=
  match rxSearch fMI t s with
  | none => s
  | some (_, _, caps, _, _) => rxReplaceAll fMI t (mk (capGet caps 1)) s

/-- The Input Normalizer's full ordered rewrite sequence on the text
(source lines 101–199): checksum-warning removal, vendor-warning removal,
double-newline collapse after ATA-error-count warnings, blank-line insertion
around the four not-supported warning lines, deletion of the seven transient
command-failure lines. -/
def normalizeText (s : List Char) : List Char :=
  let s := rxReplaceAll fMI reChecksum [] s
  let s := rxReplaceAll fMI reSamsung [] s
  let s := condReplace reAtaErrCount (fun m => m) s
  let s := condReplace reWarnErrLog (fun m => '\n' :: m ++ ['\n']) s
  let s := condReplace reWarnSelftestLog (fun m => '\n' :: m ++ ['\n']) s
  let s := condReplace reWarnSelective (fun m => '\n' :: m ++ ['\n']) s
  let s := condReplace reWarnSct (fun m => '\n' :: m ++ ['\n']) s
  let s := condReplace reDelReadLogExt (fun _ => []) s
  let s := condReplace reDelWriteLog (fun _ => []) s
  let s := condReplace reDelReadSctStatus (fun _ => []) s
  let s := condReplace reDelUnknownSctVer (fun _ => []) s
  let s := condReplace reDelReadSctData (fun _ => []) s
  let s := condReplace reDelWriteSctData (fun _ => []) s
  condReplace reDelUnexpectedSct (fun _ => []) s

/-- The trimmed first captures of all checksum-warning matches, in order
(used to materialize checksum-error properties). -/
def checksumSectionNames (s : List Char) : List (List Char) :=
  (rxAllMatches fMI reChecksum s).map (fun c => hzTrim (capGet c 1))

/-- `app_get_checksum_error_property`. -/
def appGetChecksumErrorProperty (reported_section_name : List Char) : StorageProperty :=
  let disp := "Error in ".data ++ reported_section_name ++ " structure".data
  let p : StorageProperty := {}
  let p :=
    if reported_section_name = "Attribute Data".data then
      { p with sect := .AtaAttributes }.setName "_text_only/attribute_data_checksum_error".data disp
    else if reported_section_name = "Attribute Thresholds".data then
      { p with sect := .AtaAttributes }.setName "_text_only/attribute_thresholds_checksum_error".data disp
    else if reported_section_name = "ATA Error Log".data then
      { p with sect := .AtaErrorLog }.setName "_text_only/ata_error_log_checksum_error".data disp
    else if reported_section_name = "Self-Test Log".data then
      { p with sect := .SelftestLog }.setName "_text_only/selftest_log_checksum_error".data disp
    else p
  { p with reported_value := "checksum error".data,
           value := .str "checksum error".data }

/-- True when any pattern of the normalization rewrite sequence still occurs
in `s`. -/
def normPatternOccurs (s : List Char) : Bool :=
  rxTest fMI reChecksum s || rxTest fMI reSamsung s || rxTest fMI reAtaErrCount s ||
  rxTest fMI reWarnErrLog s || rxTest fMI reWarnSelftestLog s ||
  rxTest fMI reWarnSelective s || rxTest fMI reWarnSct s ||
  rxTest fMI reDelReadLogExt s || rxTest fMI reDelWriteLog s ||
  rxTest fMI reDelReadSctStatus s || rxTest fMI reDelUnknownSctVer s ||
  rxTest fMI reDelReadSctData s || rxTest fMI reDelWriteSctData s ||
  rxTest fMI reDelUnexpectedSct s

/-! ### Version extraction (smartctl_version_parser.h, absent from src/) -/

/-- `smartctl <major>.<minor>` -/
def reVersion : RTerm :=
  rseq [rstr "smartctl ", .group 1 (rseq [rplus rdig, .lit '.', rplus rdig])]

/-- Modelled from the spec (§4.2): `SmartctlVersionParser::parse_version_text`
locates the tool's self-reported version (short and long form) inside the
text and fails when it is absent.  Modelled as: the first line containing
`smartctl <major>.<minor>` yields that numeric token as the short version
and the trimmed line as the full version. -/
def parseVersionText (s : List Char) : Option (List Char × List Char) :=
  match (splitChar '\n' false s).find? (fun l => rxTest fI reVersion l) with
  | none => none
  | some l =>
    match rxCaps fI reVersion l with
    | some caps => some (capGet caps 1, hzTrim l)
    | none => none

/-- Modelled from the spec (§4.2): the declared output kind is checked
against a compatibility table keyed by version; text output is accepted from
the first version that reliably emits it.  Modelled as major version ≥ 5. -/
def checkFormatSupportedText (v : List Char) : Bool :=
  match parseIntCore v 10 with
  | some (major, _) => decide (5 ≤ major)
  | none => false

/-- Modelled from the spec (§4.5): `SmartctlTextParserHelper::parse_byte_size`
parses a reported byte-size value ("500,107,862,016 bytes [500 GB]") into a
byte count with a human-readable rendering, or fails.  Modelled as: parse
the leading decimal integer ignoring thousands separators; on success the
readable text is the trimmed input. -/
def parseByteSize (s : List Char) : Option Int :=
  let t := trimLeftOn hzWhitespace s
  let digits := (t.takeWhile (fun c => ('0' ≤ c ∧ c ≤ '9') ∨ c = ',')).filter (fun c => c ≠ ',')
  if digits.isEmpty then none
  else some ((digits.foldl (fun a c => a * 10 + (c.toNat - '0'.toNat)) 0 : Nat) : Int)

/-! ### Info section (`parse_section_info`, `parse_section_info_property`) -/

/-- `^<text>$` as an exact-line pattern. -/
def exactLine (s : String) : RTerm := rseq [.bol, rstr s, .eol]

/-- `^<text>` -/
def lineStart (s : String) : RTerm := .seq .bol (rstr s)

/-- `/^([^:]+):[ \t]+(.*)$/i` — the info `name: value` line (full match). -/
def reInfoLine : RTerm :=
  rseq [.bol, .group 1 (rplus (rnchs ":")), .lit ':', rsp1, .group 2 (.star .anyCh), .eol]

/-- `/^==> WARNING: /mi` -/
def reInfoWarnGuard : RTerm := lineStart "==> WARNING: "

/-- `"^==> WARNING: "` (no flags) used for the replacement. -/
def reInfoWarnStrip : RTerm := lineStart "==> WARNING: "

/-- The noise-line tests of `parse_section_info` (all `/…/mi`). -/
def infoNoiseLine (line : List Char) : Bool :=
  rxTest fMI (lineStart "Unexpected SCT status") line ||
  rxTest fMI (lineStart "Write SCT (Get) XXX Error Recovery Control Command failed") line ||
  rxTest fMI (lineStart "Write SCT (Get) Feature Control Command failed") line ||
  rxTest fMI (lineStart "Read SCT Status failed") line ||
  rxTest fMI (lineStart "Read SMART Data failed") line ||
  rxTest fMI (lineStart "Unknown SCT Status format version") line ||
  rxTest fMI (lineStart "Read SMART Thresholds failed") line ||
  rxTest fMI (rstr "Enabled status cached by OS, trying SMART RETURN STATUS cmd") line ||
  rxTest fMI (lineStart ">> Terminate command early due to bad response to IEC mode page") line ||
  rxTest fMI (.seq (lineStart "scsiModePageOffset: ") (rplus .anyCh)) line

/-- `parse_section_info_property`: classify one info `name: value` pair,
setting the canonical generic identity and the typed value. -/
def parseSectionInfoProperty (p : StorageProperty) : Except SmartctlParserError StorageProperty :=
  if p.sect ≠ .Info then
    .error .InternalError
  else
    let strVal := fun (q : StorageProperty) => { q with value := PropValue.str q.reported_value }
    let nm := p.reported_name
    let tst := fun t => rxTest fMI t nm
    if tst (exactLine "Model Family") then
      .ok (strVal (p.setName "model_family".data "Model Family".data nm))
    else if tst (rseq [.bol, rstr "Device Model", .eol]) ∨
        tst (rseq [.bol, rstr "Device", .eol]) ∨ tst (rseq [.bol, rstr "Product", .eol]) then
      .ok (strVal (p.setName "model_name".data "Device Model".data nm))
    else if tst (exactLine "Vendor") then
      .ok (strVal (p.setName "vendor".data "Vendor".data nm))
    else if tst (exactLine "Revision") then
      .ok (strVal (p.setName "revision".data "Revision".data nm))
    else if tst (exactLine "Device type") then
      .ok (strVal (p.setName "device_type/name".data "Device Type".data nm))
    else if tst (exactLine "Compliance") then
      .ok (strVal (p.setName "scsi_version".data "Compliance".data nm))
    else if tst (exactLine "Serial Number") then
      .ok (strVal (p.setName "serial_number".data "Serial Number".data nm))
    else if tst (exactLine "LU WWN Device Id") then
      .ok (strVal (p.setName "wwn/_merged".data "World Wide Name".data nm))
    else if tst (rseq [.bol, rstr "Add", .anyCh, rstr " Product Id", .eol]) then
      .ok (strVal (p.setName "ata_additional_product_id".data "Additional Product ID".data nm))
    else if tst (exactLine "Firmware Version") then
      .ok (strVal (p.setName "firmware_version".data "Firmware Version".data nm))
    else if tst (exactLine "User Capacity") then
      let q := p.setName "user_capacity/bytes".data "Capacity".data nm
      (match parseByteSize q.reported_value with
       | none => .ok { q with readable_value := "[unknown]".data }
       | some v => .ok { q with readable_value := hzTrim q.reported_value, value := .int v })
    else if tst (exactLine "Sector Sizes") then
      .ok (strVal (p.setName "physical_block_size/_and/logical_block_size".data "Sector Sizes".data nm))
    else if tst (exactLine "Sector Size") then
      .ok (strVal (p.setName "physical_block_size/_and/logical_block_size".data "Sector Size".data nm))
    else if tst (exactLine "Logical block size") then
      .ok (strVal (p.setName "logical_block_size".data "Logical Block Size".data nm))
    else if tst (exactLine "Rotation Rate") then
      let q := p.setName "rotation_rate".data "Rotation Rate".data nm
      .ok { q with value := .int (stringToNumberInt64 q.reported_value false) }
    else if tst (exactLine "Form Factor") then
      .ok (strVal (p.setName "form_factor/name".data "Form Factor".data nm))
    else if tst (exactLine "Device is") then
      let q := p.setName "in_smartctl_database".data "In Smartctl Database".data nm
      .ok { q with value := .boolv (¬ rxTest fMI (rstr "Not in ") q.reported_value) }
    else if tst (exactLine "ATA Version is") then
      .ok (strVal (p.setName "ata_version/string".data "ATA Version".data nm))
    else if tst (exactLine "ATA Standard is") then
      .ok (strVal (p.setName "ata_version/string".data "ATA Standard".data nm))
    else if tst (exactLine "SATA Version is") then
      .ok (strVal (p.setName "sata_version/string".data "SATA Version".data nm))
    else if tst (exactLine "Local Time is") then
      .ok (strVal (p.setName "local_time/asctime".data "Scanned on".data nm))
    else if tst (exactLine "SMART support is") then
      let v := p.reported_value
      if rxTest fMI (rstr "Available - device has") v then
        .ok { p.setName "smart_support/available".data "SMART Supported".data nm with value := .boolv true }
      else if rxTest fMI (rstr "Enabled") v then
        .ok { p.setName "smart_support/enabled".data "SMART Enabled".data nm with value := .boolv true }
      else if rxTest fMI (rstr "Disabled") v then
        .ok { p.setName "smart_support/enabled".data "SMART Enabled".data nm with value := .boolv false }
      else if rxTest fMI (rstr "Unavailable") v then
        .ok { p.setName "smart_support/available".data "SMART Supported".data nm with value := .boolv false }
      else if rxTest fMI (rstr "Ambiguous") v then
        .ok { p.setName "smart_support/available".data "SMART Supported".data nm with value := .boolv true }
      else
        .ok p
    else if tst (exactLine "AAM feature is") then
      .ok (strVal (p.setName "ata_aam/enabled".data "AAM Feature".data nm))
    else if tst (exactLine "AAM level is") then
      .ok (strVal (p.setName "ata_aam/level".data "AAM Level".data nm))
    else if tst (exactLine "APM feature is") then
      .ok (strVal (p.setName "ata_apm/enabled".data "APM Feature".data nm))
    else if tst (exactLine "APM level is") then
      .ok (strVal (p.setName "ata_apm/level".data "APM Level".data nm))
    else if tst (exactLine "Rd look-ahead is") then
      .ok (strVal (p.setName "read_lookahead/enabled".data "Read Look-Ahead".data nm))
    else if tst (exactLine "Write cache is") then
      .ok (strVal (p.setName "write_cache/enabled".data "Write Cache".data nm))
    else if tst (exactLine "Wt Cache Reorder") then
      .ok (strVal (p.setName "_text_only/write_cache_reorder".data "Write Cache Reorder".data nm))
    else if tst (exactLine "DSN feature is") then
      .ok (strVal (p.setName "ata_dsn/enabled".data "DSN Feature".data nm))
    else if tst (rseq [.bol, rstr "Power mode ", .alt (rstr "was") (rstr "is"), .eol]) then
      .ok (strVal (p.setName "_text_only/power_mode".data "Power Mode".data nm))
    else if tst (exactLine "ATA Security is") then
      .ok (strVal (p.setName "ata_security/string".data "ATA Security".data nm))
    else if tst (lineStart "scsiMode") then
      .ok { p with show_in_ui := false }
    else
      .ok (strVal p)

/-- The line loop of `parse_section_info` (warning accumulation mode,
noise filtering, `name: value` extraction, classification). -/
def infoLoop : List (List Char) → Bool → List Char → ExpVoid × List StorageProperty
  | [], _, _ => (expOk, [])
  | line :: rest, warnMode, warnMsg =>
    let line := hzTrim line
    if warnMode then
      if ¬ line.isEmpty then
        infoLoop rest true (warnMsg ++ '\n' :: line)
      else
        let p : StorageProperty :=
          { ({ sect := .Info } : StorageProperty).setName "_text_only/info_warning".data "Warning".data with
            reported_value := warnMsg, value := .str warnMsg }
        let r := infoLoop rest false []
        (r.1, p :: r.2)
    else if line.isEmpty then
      infoLoop rest false warnMsg
    else if rxTest fMI reInfoWarnGuard line then
      infoLoop rest true (hzTrim (rxReplaceAll fNone reInfoWarnStrip [] line))
    else if rxTest fMI (rstr "mandatory SMART command failed") line then
      infoLoop rest false warnMsg
    else if infoNoiseLine line then
      infoLoop rest false warnMsg
    else
      match rxFull fI reInfoLine line with
      | some caps =>
        let name := hzTrim (capGet caps 1)
        let value := hzTrim (capGet caps 2)
        let p : StorageProperty :=
          { ({ sect := .Info } : StorageProperty).setName name name name with
            reported_value := value }
        (match parseSectionInfoProperty p with
         | .error e => (.error e, [])
         | .ok p' =>
           let r := infoLoop rest false warnMsg
           (r.1, p' :: r.2))
      | none => infoLoop rest false warnMsg

/-- `SmartctlTextAtaParser::parse_section_info`. -/
def parseSectionInfo (body : List Char) : ExpVoid × List StorageProperty :=
  infoLoop (splitChar '\n' false body) false []

/-! ### Health subsection (`parse_section_data_subsection_health`) -/

/-- `/^([^:\n]+):[ \t]*(.*)$/mi` -/
def reHealthLine : RTerm :=
  rseq [.bol, .group 1 (rplus (rnchs ":\n")), .lit ':', rsp0, .group 2 (.star .anyCh), .eol]

/-- `/SMART overall-health self-assessment/mi` -/
def reHealthName : RTerm := rstr "SMART overall-health self-assessment"

/-- The health property built from the extracted `(name, value)` pair
(source lines 802–805): boolean pass/fail from the exact string `PASSED`. -/
def healthPropOfValue (name value : List Char) : StorageProperty :=
  let pt := ({ sect := .OverallHealth } : StorageProperty).setName
    name "smart_status/passed".data "Overall Health Self-Assessment Test".data
  let pt := { pt with reported_value := value,
                      value := .boolv (decide (value = "PASSED".data)) }
  { pt with readable_value :=
      if value = "PASSED".data then "PASSED".data else "FAILED".data }

/-- `SmartctlTextAtaParser::parse_section_data_subsection_health`. -/
def parseSectionDataSubsectionHealth (sub : List Char) : ExpVoid × List StorageProperty :=
  match rxCaps fMI reHealthLine sub with
  | some caps =>
    let name := hzTrim (capGet caps 1)
    let value := hzTrim (capGet caps 2)
    if rxTest fMI reHealthName name then
      (expOk, [healthPropOfValue name value])
    else
      (expOk, [])
  | none => (.error .DataError, [])

/-! ### Capabilities subsection (`parse_section_data_subsection_capabilities`,
`parse_section_data_internal_capabilities`) -/

/-- `Off-?line` -/
def rOffline : RTerm := rseq [rstr "Off", .opt (.lit '-'), rstr "line"]

/-- `/^(Off-?line data collection) activity (?:is|was) (.*)$/mi` -/
def reOfflineStatus : RTerm :=
  rseq [.bol, .group 1 (.seq rOffline (rstr " data collection")), rstr " activity ",
    .alt (rstr "is") (rstr "was"), .lit ' ', .group 2 (.star .anyCh), .eol]

/-- `/^(Auto Off-?line Data Collection):[ \t]*(.*)$/mi` -/
def reOfflineEnabled : RTerm :=
  rseq [.bol, .group 1 (rseq [rstr "Auto ", rOffline, rstr " Data Collection"]),
    .lit ':', rsp0, .group 2 (.star .anyCh), .eol]

/-- `/^(SMART execute Off-?line immediate)$/mi` -/
def reOfflineImmediate : RTerm :=
  rseq [.bol, .group 1 (rseq [rstr "SMART execute ", rOffline, rstr " immediate"]), .eol]

/-- `/^(No |)(Auto Off-?line data collection (?:on\/off )?support)$/mi` -/
def reOfflineAuto : RTerm :=
  rseq [.bol, .group 1 (.alt (rstr "No ") .eps),
    .group 2 (rseq [rstr "Auto ", rOffline, rstr " data collection ",
      .opt (rstr "on/off "), rstr "support"]), .eol]

/-- `/^(No |)(Automatic timer ON\/OFF support)$/mi` -/
def reOfflineAuto2 : RTerm :=
  rseq [.bol, .group 1 (.alt (rstr "No ") .eps),
    .group 2 (rstr "Automatic timer ON/OFF support"), .eol]

/-- `/^(?:Suspend|Abort) (Off-?line collection upon new command)$/mi` -/
def reOfflineSuspend : RTerm :=
  rseq [.bol, .alt (rstr "Suspend") (rstr "Abort"), .lit ' ',
    .group 1 (.seq rOffline (rstr " collection upon new command")), .eol]

/-- `/^(No |)(Off-?line surface scan supported)$/mi` -/
def reOfflineSurface : RTerm :=
  rseq [.bol, .group 1 (.alt (rstr "No ") .eps),
    .group 2 (.seq rOffline (rstr " surface scan supported")), .eol]

/-- `/^(No |)(Self-test supported)$/mi` -/
def reSelftestSupport : RTerm :=
  rseq [.bol, .group 1 (.alt (rstr "No ") .eps), .group 2 (rstr "Self-test supported"), .eol]

/-- `/^(No |)(Conveyance Self-test supported)$/mi` -/
def reConvSelftestSupport : RTerm :=
  rseq [.bol, .group 1 (.alt (rstr "No ") .eps),
    .group 2 (rstr "Conveyance Self-test supported"), .eol]

/-- `/^(No |)(Selective Self-test supported)$/mi` -/
def reSelectiveSelftestSupport : RTerm :=
  rseq [.bol, .group 1 (.alt (rstr "No ") .eps),
    .group 2 (rstr "Selective Self-test supported"), .eol]

/-- `/^(SCT Status supported)$/mi` -/
def reSctStatus : RTerm := rseq [.bol, .group 1 (rstr "SCT Status supported"), .eol]

/-- `/^(SCT Feature Control supported)$/mi` -/
def reSctControl : RTerm := rseq [.bol, .group 1 (rstr "SCT Feature Control supported"), .eol]

/-- `/^(SCT Data Table supported)$/mi` -/
def reSctData : RTerm := rseq [.bol, .group 1 (rstr "SCT Data Table supported"), .eol]

/-- `/^(Off-?line data collection status)/mi` -/
def reOfflineStatusGroup : RTerm :=
  rseq [.bol, .group 1 (.seq rOffline (rstr " data collection status"))]

/-- `/^(Total time to complete Off-?line data collection)/mi` -/
def reOfflineTime : RTerm :=
  rseq [.bol, .group 1 (rseq [rstr "Total time to complete ", rOffline, rstr " data collection"])]

/-- `/^(Off-?line data collection capabilities)/mi` -/
def reOfflineCapGroup : RTerm :=
  rseq [.bol, .group 1 (.seq rOffline (rstr " data collection capabilities"))]

/-- `/^(SMART capabilities)/mi` -/
def reSmartCapGroup : RTerm := rseq [.bol, .group 1 (rstr "SMART capabilities")]

/-- `/^(Error logging capability)/mi` -/
def reErrorLogCapGroup : RTerm := rseq [.bol, .group 1 (rstr "Error logging capability")]

/-- `/^(SCT capabilities)/mi` -/
def reSctCapGroup : RTerm := rseq [.bol, .group 1 (rstr "SCT capabilities")]

/-- `/^Self-test execution status/mi` -/
def reSelftestStatusName : RTerm := lineStart "Self-test execution status"

/-- `/^(Short self-test routine recommended polling time)/mi` -/
def reSelftestShortTime : RTerm :=
  rseq [.bol, .group 1 (rstr "Short self-test routine recommended polling time")]

/-- `/^(Extended self-test routine recommended polling time)/mi` -/
def reSelftestLongTime : RTerm :=
  rseq [.bol, .group 1 (rstr "Extended self-test routine recommended polling time")]

/-- `/^(Conveyance self-test routine recommended polling time)/mi` -/
def reConvSelftestTime : RTerm :=
  rseq [.bol, .group 1 (rstr "Conveyance self-test routine recommended polling time")]

def isSecondsValue : PropValue → Bool
  | .seconds _ => true
  | _ => false

def isCapabilityValue : PropValue → Bool
  | .capability _ => true
  | _ => false

/-- `get_value<AtaStorageTextCapability>().strvalues`; the C++ accessor
throws on a type mismatch, which the parser never triggers — modelled as
the empty list on mismatch. -/
def getCapStrvalues : PropValue → List (List Char)
  | .capability c => c.strvalues
  | _ => []

/-- One line of the self-test-status decoding loop inside
`parse_section_data_internal_capabilities` (source lines 1087–1144). -/
def selftestStatusLineStep (sse : AtaStorageSelftestEntry) (sv : List Char) :
    AtaStorageSelftestEntry :=
  match rxCaps fMI (rseq [.bol, .group 1 (rplus rdig), rstr "% of test remaining"]) sv with
  | some caps =>
    (match stringIsNumeric (capGet caps 1) true 0 (-128) 127 with
     | some v => { sse with remaining_percent := v }
     | none => sse)
  | none =>
    let try1 := fun (t : RTerm) (st : SelftestStatus) (k : Option AtaStorageSelftestEntry) =>
      match k with
      | some r => some r
      | none =>
        match rxCaps fMI t sv with
        | some caps => some { sse with status_str := capGet caps 1, status := st }
        | none => none
    let r :=
      try1 (rseq [.bol, .group 1 (rseq [rstr "The previous self-test routine completed without error or no ", .star .anyCh])]) .CompletedNoError none
    let r := try1 (rseq [.bol, .group 1 (rstr "The self-test routine was aborted by the host")]) .AbortedByHost r
    let r := try1 (rseq [.bol, .group 1 (rseq [rstr "The self-test routine was interrupted by the host with a hard", .star .anyCh])]) .Interrupted r
    let r := try1 (rseq [.bol, .group 1 (rseq [rstr "A fatal error or unknown test error occurred while the device was executing its ", .star .anyCh])]) .FatalOrUnknown r
    let r := try1 (rseq [.bol, .group 1 (rstr "The previous self-test completed having a test element that failed and the test element that failed is not known")]) .ComplUnknownFailure r
    let r := try1 (rseq [.bol, .group 1 (rstr "The previous self-test completed having the electrical element of the test failed")]) .ComplElectricalFailure r
    let r := try1 (rseq [.bol, .group 1 (rseq [rstr "The previous self-test completed having the servo ", .star .anyCh])]) .ComplServoFailure r
    let r := try1 (rseq [.bol, .group 1 (rstr "The previous self-test completed having the read element of the test failed")]) .ComplReadFailure r
    let r := try1 (rseq [.bol, .group 1 (rstr "The previous self-test completed having a test element that failed and the device is suspected of having handling damage")]) .ComplHandlingDamage r
    let r := try1 (rseq [.bol, .group 1 (rseq [rstr "The previous self-test routine completed with unknown result or self-test ", .star .anyCh])]) .ComplUnknownFailure r
    let r := try1 (rseq [.bol, .group 1 (rstr "Self-test routine in progress")]) .InProgress r
    let r := try1 (rseq [.bol, .group 1 (rstr "Reserved")]) .Reserved r
    r.getD sse

/-- One capability sentence of the subcapability-mining loop (source lines
1180–1244): build the internal property for `sv`, or an incomplete one when
no pattern matches. -/
def internalCapOfSentence (sv : List Char) : StorageProperty :=
  let p : StorageProperty := { sect := .Capabilities }
  match rxCaps fMI reOfflineStatus sv with
  | some caps =>
    { p.setName "ata_smart_data/offline_data_collection/status/string".data
        (capGet caps 1) (capGet caps 1) with
      value := .str (hzTrim (capGet caps 2)) }
  | none =>
  match rxCaps fMI reOfflineEnabled sv with
  | some caps =>
    { p.setName "ata_smart_data/offline_data_collection/status/value/_parsed".data
        (capGet caps 1) (capGet caps 1) with
      value := .boolv (decide (hzTrim (capGet caps 2) = "Enabled".data)) }
  | none =>
  match rxCaps fMI reOfflineImmediate sv with
  | some caps =>
    { p.setName "ata_smart_data/capabilities/exec_offline_immediate_supported".data
        (capGet caps 1) (capGet caps 1) with
      value := .boolv true }
  | none =>
  match (match rxCaps fMI reOfflineAuto sv with
         | some caps => some caps
         | none => rxCaps fMI reOfflineAuto2 sv) with
  | some caps =>
    { p.setName "_text_only/aodc_support".data
        "Automatic Offline Data Collection toggle support".data (capGet caps 2) with
      value := .boolv (decide (hzTrim (capGet caps 1) ≠ "No".data)) }
  | none =>
  match rxCaps fMI reOfflineSuspend sv with
  | some caps =>
    { p.setName "ata_smart_data/capabilities/offline_is_aborted_upon_new_cmd".data
        "Offline Data Collection suspends upon new command".data (capGet caps 2) with
      value := .boolv (decide (hzTrim (capGet caps 1) = "Suspend".data)) }
  | none =>
  match rxCaps fMI reOfflineSurface sv with
  | some caps =>
    { p.setName "ata_smart_data/capabilities/offline_surface_scan_supported".data
        (capGet caps 2) (capGet caps 2) with
      value := .boolv (decide (hzTrim (capGet caps 1) ≠ "No".data)) }
  | none =>
  match rxCaps fMI reSelftestSupport sv with
  | some caps =>
    { p.setName "ata_smart_data/capabilities/self_tests_supported".data
        (capGet caps 2) (capGet caps 2) with
      value := .boolv (decide (hzTrim (capGet caps 1) ≠ "No".data)) }
  | none =>
  match rxCaps fMI reConvSelftestSupport sv with
  | some caps =>
    { p.setName "ata_smart_data/capabilities/conveyance_self_test_supported".data
        (capGet caps 2) (capGet caps 2) with
      value := .boolv (decide (hzTrim (capGet caps 1) ≠ "No".data)) }
  | none =>
  match rxCaps fMI reSelectiveSelftestSupport sv with
  | some caps =>
    { p.setName "ata_smart_data/capabilities/selective_self_test_supported".data
        (capGet caps 2) (capGet caps 2) with
      value := .boolv (decide (hzTrim (capGet caps 1) ≠ "No".data)) }
  | none =>
  match rxCaps fMI reSctStatus sv with
  | some caps =>
    { p.setName "ata_sct_capabilities/value/_present".data
        (capGet caps 1) (capGet caps 1) with
      value := .boolv true }
  | none =>
  match rxCaps fMI reSctControl sv with
  | some caps =>
    { p.setName "ata_sct_capabilities/feature_control_supported".data
        (capGet caps 1) (capGet caps 1) with
      value := .boolv true }
  | none =>
  match rxCaps fMI reSctData sv with
  | some caps =>
    { p.setName "ata_sct_capabilities/data_table_supported".data
        (capGet caps 1) (capGet caps 1) with
      value := .boolv true }
  | none => p

/-- `SmartctlTextAtaParser::parse_section_data_internal_capabilities`:
returns the result, the (possibly renamed) capability property and the
internal properties emitted along the way. -/
def parseSectionDataInternalCapabilities (cap_prop : StorageProperty) :
    ExpVoid × StorageProperty × List StorageProperty :=
  if cap_prop.sect ≠ .Capabilities then
    (.error .DataError, cap_prop, [])
  else
    -- Name the capability groups
    let cap_prop :=
      if isCapabilityValue cap_prop.value then
        if rxTest fMI reOfflineStatusGroup cap_prop.reported_name then
          { cap_prop with generic_name := "ata_smart_data/offline_data_collection/status/_group".data }
        else if rxTest fMI reOfflineCapGroup cap_prop.reported_name then
          { cap_prop with generic_name := "ata_smart_data/offline_data_collection/_group".data }
        else if rxTest fMI reSmartCapGroup cap_prop.reported_name then
          { cap_prop with generic_name := "ata_smart_data/capabilities/_group".data }
        else if rxTest fMI reErrorLogCapGroup cap_prop.reported_name then
          { cap_prop with generic_name := "ata_smart_data/capabilities/error_logging_supported/_group".data }
        else if rxTest fMI reSctCapGroup cap_prop.reported_name then
          { cap_prop with generic_name := "ata_sct_capabilities/_group".data }
        else if rxTest fMI reSelftestStatusName cap_prop.reported_name then
          { cap_prop with generic_name := "ata_smart_data/self_test/status/_group".data }
        else cap_prop
      else cap_prop
    -- Last self-test status
    if rxTest fMI reSelftestStatusName cap_prop.reported_name then
      let p := ({ sect := .Capabilities } : StorageProperty).setName
        "ata_smart_data/self_test/status/_merged".data "Self-test execution status".data
      let sse : AtaStorageSelftestEntry := { test_num := 0, remaining_percent := -1 }
      let sse := (getCapStrvalues cap_prop.value).foldl selftestStatusLineStep sse
      (expOk, cap_prop, [{ p with value := .selftest sse }])
    -- Time-related properties: only the generic name is set
    else if isSecondsValue cap_prop.value then
      let cap_prop :=
        if rxTest fMI reOfflineTime cap_prop.reported_name then
          { cap_prop with generic_name := "ata_smart_data/offline_data_collection/completion_seconds".data }
        else if rxTest fMI reSelftestShortTime cap_prop.reported_name then
          { cap_prop with generic_name := "ata_smart_data/self_test/polling_minutes/short".data }
        else if rxTest fMI reSelftestLongTime cap_prop.reported_name then
          { cap_prop with generic_name := "ata_smart_data/self_test/polling_minutes/extended".data }
        else if rxTest fMI reConvSelftestTime cap_prop.reported_name then
          { cap_prop with generic_name := "ata_smart_data/self_test/polling_minutes/conveyance".data }
        else cap_prop
      (expOk, cap_prop, [])
    -- Extract subcapabilities from capability vectors
    else if isCapabilityValue cap_prop.value then
      let emitted := (getCapStrvalues cap_prop.value).foldr
        (fun sv acc =>
          let p := internalCapOfSentence sv
          if ¬ p.isEmptyProp then p :: acc else acc) []
      (expOk, cap_prop, emitted)
    else
      (.error .DataError, cap_prop, [])

/-- `/(is in a Vendor Specific state)\n\.$/mi` -/
def reVendorFix : RTerm :=
  rseq [.group 1 (rstr "is in a Vendor Specific state"), .lit '\n', .lit '.', .eol]

/-- `/(is in a Reserved state)\n\.$/mi` -/
def reReservedFix : RTerm :=
  rseq [.group 1 (rstr "is in a Reserved state"), .lit '\n', .lit '.', .eol]

/-- `/([^:]*):\s*\(([^)]+)\)\s*([\s\S]*)/m` — one capability block (full match). -/
def reCapBlock : RTerm :=
  rseq [.group 1 (.star (rnchs ":")), .lit ':', .star rWs, .lit '(',
    .group 2 (rplus (rnchs ")")), .lit ')', .star rWs, .group 3 (.star rAnyNL)]

/-- `line.find_first_of(" \t") != 0`: the line does not begin with a space
or tab. -/
def headNotWs : List Char → Bool
  | c :: _ => ¬ (c = ' ' ∨ c = '\t')
  | [] => true

/-- The line-merging loop of the Capabilities parser (source lines 876–897):
blocks start at non-whitespace lines; a block whose name spans several lines
(no colon yet) swallows following lines until a colon appears. -/
def capBlocksGo : List (List Char) → Bool → List (List Char) → List (List Char)
  | [], _, acc => acc.reverse
  | line :: rest, partialFlag, acc =>
    if line.isEmpty ∨ rxTest fMI (rstr "General SMART Values") line then
      capBlocksGo rest partialFlag acc
    else
      let line := line ++ ['\n']
      if headNotWs line ∧ ¬ partialFlag then
        capBlocksGo rest (¬ line.contains ':') (line :: acc)
      else
        let partialFlag := if partialFlag ∧ line.contains ':' then false else partialFlag
        match acc with
        | [] => capBlocksGo rest partialFlag [line]
        | b :: bs => capBlocksGo rest partialFlag ((b ++ line) :: bs)

/-- Flattening applied to block names and values (source lines 921–925). -/
def capFlatten (s : List Char) : List Char :=
  hzTrim (removeAdjacentDup ' ' (replaceCharsWith ['\t', '\n'] ' ' s))

/-- Process one capability block (source lines 906–987): returns the
properties it emits and whether it counts as a found capability. -/
def capProcessBlock (block : List Char) : List StorageProperty × Bool :=
  let pt : StorageProperty := { sect := .Capabilities }
  match rxFull fM reCapBlock (hzTrim block) with
  | none => ([], false)
  | some caps =>
    let name_orig := capGet caps 1
    let numvalue_orig := capGet caps 2
    let strvalue_orig := capGet caps 3
    let name := capFlatten name_orig
    let strvalue := capFlatten strvalue_orig
    let numvalue : Int := (stringIsNumeric (hzTrim numvalue_orig) false 0 int64Lo int64Hi).getD (-1)
    if eraseRight strvalue ['.'] = "minutes".data ∨ eraseRight strvalue ['.'] = "seconds".data then
      -- Time length properties
      let numvalue := if eraseRight strvalue ['.'] = "minutes".data then numvalue * 60 else numvalue
      let p := { pt.setName name name name with
        reported_value := numvalue_orig ++ " | ".data ++ strvalue_orig,
        value := .seconds numvalue }
      let t := parseSectionDataInternalCapabilities p
      (t.2.2 ++ (if t.1.hasValue then [t.2.1] else []), t.1.hasValue)
    else
      -- Capability (flag list) properties
      let cap : AtaStorageTextCapability :=
        { reported_flag_value := numvalue_orig,
          flag_value := (numvalue.emod 65536).toNat,
          reported_strvalue := strvalue_orig,
          strvalues := (splitChar '.' true strvalue).map hzTrim }
      let p := { pt.setName name name name with
        reported_value := numvalue_orig ++ " | ".data ++ strvalue_orig,
        value := .capability cap }
      let t := parseSectionDataInternalCapabilities p
      (t.2.2 ++ (if t.1.hasValue then [t.2.1] else []), t.1.hasValue)

/-- `SmartctlTextAtaParser::parse_section_data_subsection_capabilities`. -/
def parseSectionDataSubsectionCapabilities (sub_initial : List Char) :
    ExpVoid × List StorageProperty :=
  let sub := rxReplaceAll fMI reVendorFix "\\1.".data sub_initial
  let sub := rxReplaceAll fMI reReservedFix "\\1.".data sub
  let blocks := capBlocksGo (splitChar '\n' true sub) false []
  let results := blocks.map capProcessBlock
  let props := results.foldr (fun r acc => r.1 ++ acc) []
  if results.any (·.2) then (expOk, props) else (.error .DataError, props)

/-! ### Attributes subsection (`parse_section_data_subsection_attributes`) -/

inductive AttrFormatStyle where
  | Old
  | NoUpdated
  | Brief
deriving DecidableEq, Repr

/-- `(0x[a-fA-F0-9]+)` -/
def rOldFlag : RTerm :=
  .group 3 (rseq [.lit '0', .lit 'x', rplus (.cls false [('a', 'f'), ('A', 'F'), ('0', '9')])])

/-- `([A-Z+-]{2,})` -/
def rBriefFlag : RTerm :=
  .group 3 (rrep2 (.cls false [('A', 'Z'), ('+', '+'), ('-', '-')]))

/-- `[ \t]*([0-9]+) ([^ \t\n]+(?:[^0-9\t\n]+)*)[ \t]+<flag>[ \t]+` -/
def rOldBase : RTerm :=
  rseq [rsp0, .group 1 (rplus rdig), .lit ' ',
    .group 2 (.seq (rplus (rnchs " \t\n")) (.star (rplus (.cls true [('0', '9'), ('\t', '\t'), ('\n', '\n')])))),
    rsp1, rOldFlag, rsp1]

/-- `[ \t]*([0-9]+) ([^ \t\n]+)[ \t]+<flag>[ \t]+` -/
def rBriefBase : RTerm :=
  rseq [rsp0, .group 1 (rplus rdig), .lit ' ', .group 2 (rplus (rnchs " \t\n")),
    rsp1, rBriefFlag, rsp1]

/-- `([0-9-]+)[ \t]+([0-9-]+)[ \t]+([0-9-]+)[ \t]+` (value / worst / threshold). -/
def rAttrVals : RTerm :=
  rseq [.group 4 (rplus (.cls false [('0', '9'), ('-', '-')])), rsp1,
    .group 5 (rplus (.cls false [('0', '9'), ('-', '-')])), rsp1,
    .group 6 (rplus (.cls false [('0', '9'), ('-', '-')])), rsp1]

/-- `([^ \t\n]+)[ \t]+` at group `n`. -/
def rAttrWord (n : Nat) : RTerm := rseq [.group n (rplus (rnchs " \t\n")), rsp1]

/-- `(.+)[ \t]*` at group `n`. -/
def rAttrRaw (n : Nat) : RTerm := rseq [.group n (rplus .anyCh), rsp0]

/-- `re_old_up` (id, name, flag, value, worst, threshold, type, updated,
when-failed, raw). -/
def reAttrOldUp : RTerm :=
  rseq [rOldBase, rAttrVals, rAttrWord 7, rAttrWord 8, rAttrWord 9, rAttrRaw 10]

/-- `re_old_noup` (id, name, flag, value, worst, threshold, type,
when-failed, raw). -/
def reAttrOldNoup : RTerm :=
  rseq [rOldBase, rAttrVals, rAttrWord 7, rAttrWord 8, rAttrRaw 9]

/-- `re_brief` (id, name, flag, value, worst, threshold, when-failed, raw). -/
def reAttrBrief : RTerm :=
  rseq [rBriefBase, rAttrVals, rAttrWord 7, rAttrRaw 8]

/-- `/^[\t ]+\|/mi` -/
def reFlagDescr : RTerm := rseq [.bol, rsp1, .lit '|']

def int32Lo : Int := -(2 ^ 31)
def int32Hi : Int := 2 ^ 31 - 1

/-- Parse one attribute-table line under the selected format (source lines
1372–1468): the captured columns are coerced into an `AtaStorageAttribute`. -/
def parseAttrLine (style : AttrFormatStyle) (line : List Char) : Option StorageProperty :=
  let caps? :=
    match style with
    | .Old => rxFull fMI reAttrOldUp line
    | .NoUpdated => rxFull fMI reAttrOldNoup line
    | .Brief => rxFull fMI reAttrBrief line
  match caps? with
  | none => none
  | some caps =>
    let id := capGet caps 1
    let name := capGet caps 2
    let flag := capGet caps 3
    let value := capGet caps 4
    let worst := capGet caps 5
    let threshold := capGet caps 6
    let attr_type := match style with | .Brief => [] | _ => capGet caps 7
    let update_type := match style with | .Old => capGet caps 8 | _ => []
    let when_failed :=
      match style with
      | .Old => capGet caps 9
      | .NoUpdated => capGet caps 8
      | .Brief => capGet caps 7
    let raw_value :=
      match style with
      | .Old => capGet caps 10
      | .NoUpdated => capGet caps 9
      | .Brief => capGet caps 8
    let attr : AtaStorageAttribute := {}
    let attr := { attr with
      id := (stringIsNumeric (hzTrim id) true 10 int32Lo int32Hi).getD attr.id,
      flag := hzTrim flag,
      value := stringIsNumeric (hzTrim value) true 10 0 255,
      worst := stringIsNumeric (hzTrim worst) true 10 0 255,
      threshold := stringIsNumeric (hzTrim threshold) true 10 0 255 }
    let attr := { attr with
      attr_type :=
        if style = AttrFormatStyle.Brief then
          if rxTest fNone (rstr "P") attr.flag then .Prefail else .OldAge
        else if attr_type = "Pre-fail".data then .Prefail
        else if attr_type = "Old_age".data then .OldAge
        else .Unknown,
      update_type :=
        if style = AttrFormatStyle.Brief then
          if rxTest fNone (rstr "O") attr.flag then .Always else .Offline
        else if update_type = "Always".data then .Always
        else if update_type = "Offline".data then .Offline
        else .Unknown }
    let wf := hzTrim when_failed
    let attr := { attr with
      when_failed :=
        if wf = "-".data then .None
        else if wf = "In_the_past".data ∨ wf = "Past".data then .Past
        else if wf = "FAILING_NOW".data ∨ wf = "NOW".data then .Now
        else .Unknown,
      raw_value := hzTrim raw_value,
      raw_value_int := (stringIsNumeric (hzTrim raw_value) false 0 int64Lo int64Hi).getD 0 }
    some { (({ sect := .AtaAttributes } : StorageProperty).setName
        (hzTrim name) (hzTrim name) (hzTrim name)) with
      reported_value := line, value := .attr attr }

/-- `/^([^:\n]+):[ \t]*(.*)$/mi` — the revision-number line. -/
def reRevisionLine : RTerm :=
  rseq [.bol, .group 1 (rplus (rnchs ":\n")), .lit ':', rsp0, .group 2 (.star .anyCh), .eol]

/-- The line loop of the Attributes parser; carries the detected format
style and returns the emitted properties and whether anything was found. -/
def attrLoop : List (List Char) → AttrFormatStyle → List StorageProperty × Bool
  | [], _ => ([], false)
  | line :: rest, style =>
    if line.isEmpty ∨ rxTest fMI (rstr "SMART Attributes with Thresholds") line then
      attrLoop rest style
    else if rxTest fMI (rstr "ATTRIBUTE_NAME") line then
      let style : AttrFormatStyle :=
        if ¬ rxTest fMI (rstr "WHEN_FAILED") line then .Brief
        else if ¬ rxTest fMI (rstr "UPDATED") line then .NoUpdated
        else style
      attrLoop rest style
    else if rxTest fMI reFlagDescr line then
      attrLoop rest style
    else if rxTest fMI (rstr "Data Structure revision number") line then
      match rxCaps fMI reRevisionLine line with
      | some caps =>
        let name := hzTrim (capGet caps 1)
        let value := hzTrim (capGet caps 2)
        let value_num := (stringIsNumeric value false 0 int64Lo int64Hi).getD 0
        let p := { (({ sect := .AtaAttributes } : StorageProperty).setName
            "ata_smart_attributes/revision".data name name) with
          reported_value := value, value := .int value_num }
        let r := attrLoop rest style
        (p :: r.1, true)
      | none => attrLoop rest style
    else
      match parseAttrLine style line with
      | some p =>
        let r := attrLoop rest style
        (p :: r.1, true)
      | none => attrLoop rest style

/-- `SmartctlTextAtaParser::parse_section_data_subsection_attributes`. -/
def parseSectionDataSubsectionAttributes (sub : List Char) : ExpVoid × List StorageProperty :=
  let r := attrLoop (splitChar '\n' true sub) .Old
  if r.2 then (expOk, r.1) else (.error .DataError, r.1)

/-! ### Self-test log subsection (`parse_section_data_subsection_selftest_log`) -/

/-- `/^(Warning: device does not support Self Test Logging)|(SMART Self-test Log not supported)$/mi`
(the anchors bind to the individual alternatives). -/
def reSelftestLogSupport : RTerm :=
  .alt (.seq .bol (.group 1 (rstr "Warning: device does not support Self Test Logging")))
    (.seq (.group 2 (rstr "SMART Self-test Log not supported")) .eol)

/-- `/(SMART Self-test log structure[^\n0-9]*)([^ \n]+)[ \t]*$/mi` -/
def reSelftestVer1 : RTerm :=
  rseq [.group 1 (.seq (rstr "SMART Self-test log structure")
      (.star (.cls true [('\n', '\n'), ('0', '9')]))),
    .group 2 (rplus (rnchs " \n")), rsp0, .eol]

/-- `/(SMART Extended Self-test Log Version): ([0-9]+).*$/mi` -/
def reSelftestVer1Ex : RTerm :=
  rseq [.group 1 (rstr "SMART Extended Self-test Log Version"), rstr ": ",
    .group 2 (rplus rdig), .star .anyCh, .eol]

/-- `/(SMART Self-test log, version number[^\n0-9]*)([^ \n]+)[ \t]*$/mi` -/
def reSelftestVer2 : RTerm :=
  rseq [.group 1 (.seq (rstr "SMART Self-test log, version number")
      (.star (.cls true [('\n', '\n'), ('0', '9')]))),
    .group 2 (rplus (rnchs " \n")), rsp0, .eol]

/-- The self-test log row pattern (source lines 1815–1816):
`^(#[ \t]*([0-9]+)[ \t]+(\S+(?: \S+)*)  [ \t]*(\S.*) [ \t]*([0-9]+%)  [ \t]*([0-9]+)[ \t]*((?:  [ \t]*\S.*)?))$` -/
def reSelftestRow : RTerm :=
  rseq [.bol,
    .group 1 (rseq [.lit '#', rsp0, .group 2 (rplus rdig), rsp1,
      .group 3 (.seq (rplus rNotWs) (.star (.seq (.lit ' ') (rplus rNotWs)))),
      rstr "  ", rsp0,
      .group 4 (.seq rNotWs (.star .anyCh)),
      .lit ' ', rsp0,
      .group 5 (.seq (rplus rdig) (.lit '%')),
      rstr "  ", rsp0,
      .group 6 (rplus rdig), rsp0,
      .group 7 (.opt (rseq [rstr "  ", rsp0, rNotWs, .star .anyCh]))]),
    .eol]

def uint32Hi : Int := 2 ^ 32 - 1

/-- The ordered status-prefix table of the self-test log rows
(source lines 1846–1868). -/
def selftestRowStatus (status_str : List Char) : SelftestStatus :=
  if rxTest fMI (lineStart "Completed without error") status_str then .CompletedNoError
  else if rxTest fMI (lineStart "Aborted by host") status_str then .AbortedByHost
  else if rxTest fMI (lineStart "Interrupted (host reset)") status_str then .Interrupted
  else if rxTest fMI (lineStart "Fatal or unknown error") status_str then .FatalOrUnknown
  else if rxTest fMI (lineStart "Completed: unknown failure") status_str then .ComplUnknownFailure
  else if rxTest fMI (lineStart "Completed: electrical failure") status_str then .ComplElectricalFailure
  else if rxTest fMI (lineStart "Completed: servo/seek failure") status_str then .ComplServoFailure
  else if rxTest fMI (lineStart "Completed: read failure") status_str then .ComplReadFailure
  else if rxTest fMI (lineStart "Completed: handling damage") status_str then .ComplHandlingDamage
  else if rxTest fMI (lineStart "Self-test routine in progress") status_str then .InProgress
  else if rxTest fMI (lineStart "Unknown/reserved test status") status_str then .Reserved
  else .Unknown

/-- Build a `SelfTestEntry` property from one matched row (source lines
1819–1875). -/
def selftestRowProp (caps : List (Nat × List Char)) : StorageProperty :=
  let line := hzTrim (capGet caps 1)
  let num := hzTrim (capGet caps 2)
  let type := hzTrim (capGet caps 3)
  let status_str := hzTrim (capGet caps 4)
  let remaining := hzTrim (capGet caps 5)
  let hours := hzTrim (capGet caps 6)
  let lba := hzTrim (capGet caps 7)
  let sse : AtaStorageSelftestEntry := {}
  let sse := { sse with
    test_num := (stringIsNumeric num false 0 0 uint32Hi).getD sse.test_num,
    remaining_percent := (stringIsNumeric remaining false 0 (-128) 127).getD sse.remaining_percent,
    lifetime_hours := (stringIsNumeric hours false 0 0 uint32Hi).getD sse.lifetime_hours,
    type := type,
    lba_of_first_error := if lba.isEmpty then "-".data else lba }
  let sse := { sse with status_str := status_str, status := selftestRowStatus status_str }
  { (({ sect := .SelftestLog } : StorageProperty).setName
      ("ata_smart_self_test_log/entry/".data ++ num) ("Self-test entry ".data ++ num)) with
    reported_value := line, value := .selftest sse }

/-- `SmartctlTextAtaParser::parse_section_data_subsection_selftest_log`. -/
def parseSectionDataSubsectionSelftestLog (sub : List Char) : ExpVoid × List StorageProperty :=
  let pt : StorageProperty := { sect := .SelftestLog }
  -- the whole subsection
  let merged := { pt.setName "ata_smart_self_test_log/_merged".data "SMART Self-Test Log".data with
    reported_value := sub, value := .str sub }
  -- self-test log support
  let supportProps :=
    if rxTest fMI reSelftestLogSupport sub then
      [{ pt.setName "ata_smart_self_test_log/_present".data "Self-test Log supported".data with
          displayable_name := "Warning".data,
          readable_value := "Device does not support self-test logging".data }]
    else []
  -- self-test log version
  let verCaps :=
    match rxCaps fMI reSelftestVer1 sub with
    | some c => some c
    | none =>
      match rxCaps fMI reSelftestVer1Ex sub with
      | some c => some c
      | none => rxCaps fMI reSelftestVer2 sub
  let verProps :=
    match verCaps with
    | some caps =>
      let name := capGet caps 1
      let value := hzTrim (capGet caps 2)
      [{ pt.setName "ata_smart_self_test_log/extended/revision".data (hzTrim name) with
          reported_value := value,
          value := .int ((stringIsNumeric value false 0 int64Lo int64Hi).getD 0) }]
    | none => []
  -- individual entries
  let rows := rxAllMatches fMI reSelftestRow sub
  let rowProps := rows.map selftestRowProp
  let test_count : Int := rows.length
  let countProp := { pt.setName "ata_smart_self_test_log/extended/table/count".data
      "Number of entries in self-test log".data with
    value := .int test_count }
  let data_found := !supportProps.isEmpty || !verProps.isEmpty || !rowProps.isEmpty ||
    decide (test_count > 0)
  (if data_found then expOk else .error .DataError,
    merged :: supportProps ++ verProps ++ rowProps ++ [countProp])

/-! ### Directory log, selective self-test, SCT temperature, SCT ERC and
SATA-PHY subsections -/

/-- `SmartctlTextAtaParser::parse_section_data_subsection_directory_log`. -/
def parseSectionDataSubsectionDirectoryLog (sub : List Char) : ExpVoid × List StorageProperty :=
  let pt : StorageProperty := { sect := .DirectoryLog }
  let merged := { pt.setName "ata_log_directory/_merged".data "General Purpose Log Directory".data with
    reported_value := sub, value := .str sub }
  let supported := { pt.setName "_text_only/directory_log_supported".data
      "General Purpose Log Directory supported".data with
    value := .boolv (¬ rxTest fMI (rstr "General Purpose Log Directory not supported") sub) }
  (expOk, [merged, supported])

/-- `SmartctlTextAtaParser::parse_section_data_subsection_selective_selftest_log`. -/
def parseSectionDataSubsectionSelectiveSelftestLog (sub : List Char) :
    ExpVoid × List StorageProperty :=
  let pt : StorageProperty := { sect := .SelectiveSelftestLog }
  let merged := { pt.setName "ata_smart_selective_self_test_log/_merged".data
      "SMART selective self-test log".data with
    reported_value := sub, value := .str sub }
  let isSupported := ¬ rxTest fMI (rstr "Device does not support Selective Self Tests/Logging") sub
  let supported := { pt.setName
      "ata_smart_data/capabilities/selective_self_test_supported".data
      "Selective self-tests supported".data with
    value := .boolv isSupported }
  (if ¬ isSupported then expOk else .error .DataError, [merged, supported])

/-- `SmartctlTextAtaParser::parse_section_data_subsection_scttemp_log`. -/
def parseSectionDataSubsectionScttempLog (sub : List Char) : ExpVoid × List StorageProperty :=
  let pt : StorageProperty := { sect := .TemperatureLog }
  let merged := { pt.setName "ata_sct_status/_and/ata_sct_temperature_history/_merged".data
      "SCT temperature log".data with
    reported_value := sub, value := .str sub }
  let notPresent :=
    rxTest fMI (rstr "SCT Commands not supported") sub ||
    rxTest fMI (rstr "SCT Data Table command not supported") sub
  let unsupported := { pt.setName "_text_only/ata_sct_status/_not_present".data
      "SCT commands unsupported".data with
    value := .boolv notPresent }
  let tempCaps := rxCaps fMI (rseq [.bol, .group 1 (rstr "Current Temperature"), .lit ':',
    rsp1, .group 2 (.star .anyCh), rstr " Celsius", .eol]) sub
  let tempProps :=
    match tempCaps with
    | some caps =>
      let value := capGet caps 2
      [{ (({ sect := .TemperatureLog } : StorageProperty).setName
          "ata_sct_status/temperature/current".data "Current Temperature".data) with
        reported_value := value, value := .int (stringToNumberInt64 value true) }]
    | none => []
  let data_found := notPresent ∨ ¬ tempProps.isEmpty
  (if data_found then expOk else .error .DataError, merged :: unsupported :: tempProps)

/-- `SmartctlTextAtaParser::parse_section_data_subsection_scterc_log`. -/
def parseSectionDataSubsectionSctercLog (sub : List Char) : ExpVoid × List StorageProperty :=
  let pt : StorageProperty := { sect := .ErcLog }
  let merged := { pt.setName "ata_sct_erc/_merged".data "SCT ERC log".data with
    reported_value := sub, value := .str sub }
  let isPresent := ¬ rxTest fMI (rstr "SCT Error Recovery Control command not supported") sub
  let present := { pt.setName "ata_sct_erc/_present".data "SCT ERC supported".data with
    value := .boolv isPresent }
  (if isPresent then expOk else .error .DataError, [merged, present])

/-- `SmartctlTextAtaParser::parse_section_data_subsection_sataphy`. -/
def parseSectionDataSubsectionSataphy (sub : List Char) : ExpVoid × List StorageProperty :=
  let pt : StorageProperty := { sect := .PhyLog }
  let merged := { pt.setName "sata_phy_event_counters/_merged".data "SATA Phy log".data with
    reported_value := sub, value := .str sub }
  let isPresent :=
    (¬ rxTest fMI (rstr "SATA Phy Event Counters (GP Log 0x11) not supported") sub) ∧
    (¬ rxTest fMI (rseq [rstr "SATA Phy Event Counters with ",
        rplus (.cls false [('0', '9'), ('-', '-')]), rstr " sectors not supported"]) sub)
  let present := { pt.setName "sata_phy_event_counters/_present".data
      "SATA Phy log supported".data with
    value := .boolv isPresent }
  (if isPresent then expOk else .error .DataError, [merged, present])

/-! ### Error log subsection (`parse_section_data_subsection_error_log`) -/

/-- `/^(SMART (Extended Comprehensive )?Error Log Version): ([0-9]+).*?$/mi` -/
def reErrorLogVersion : RTerm :=
  rseq [.bol, .group 1 (rseq [rstr "SMART ", .opt (.group 2 (rstr "Extended Comprehensive ")),
    rstr "Error Log Version"]), rstr ": ", .group 3 (rplus rdig), .star .anyCh, .eol]

/-- `/^(Warning: device does not support Error Logging)|(SMART Error Log not supported)$/mi` -/
def reErrorLogSupport : RTerm :=
  .alt (.seq .bol (.group 1 (rstr "Warning: device does not support Error Logging")))
    (.seq (.group 2 (rstr "SMART Error Log not supported")) .eol)

/-- `/^(?:ATA|Device) Error Count:[ \t]*([0-9]+)/mi` -/
def reErrorCount : RTerm :=
  rseq [.bol, .alt (rstr "ATA") (rstr "Device"), rstr " Error Count:", rsp0,
    .group 1 (rplus rdig)]

/-- `/^No Errors Logged$/mi` -/
def reNoErrorsLogged : RTerm := exactLine "No Errors Logged"

/-- The error-block pattern (source lines 1651–1652):
`^((Error[ \t]*([0-9]+))[ \t]*(?:\[[0-9]+\][ \t])?occurred at disk power-on lifetime:[ \t]*([0-9]+) hours(?:[^\n]*)?.*(?:\n(?:  |\n  ).*)*)` -/
def reErrorBlock : RTerm :=
  rseq [.bol, .group 1 (rseq [
    .group 2 (rseq [rstr "Error", rsp0, .group 3 (rplus rdig)]), rsp0,
    .opt (rseq [.lit '[', rplus rdig, .lit ']', rchs " \t"]),
    rstr "occurred at disk power-on lifetime:", rsp0,
    .group 4 (rplus rdig), rstr " hours",
    .opt (.star (rnchs "\n")), .star .anyCh,
    .star (rseq [.lit '\n', .alt (rstr "  ") (rstr "\n  "), .star .anyCh])])]

/-- `/occurred, the device was[ \t]*(?: in)?(?: an?)?[ \t]+([^.\n]*)\.?/mi` -/
def reErrorState : RTerm :=
  rseq [rstr "occurred, the device was", rsp0, .opt (rstr " in"),
    .opt (rseq [rstr " a", .opt (.lit 'n')]), rsp1,
    .group 1 (.star (rnchs ".\n")), .opt (.lit '.')]

/-- `/[ \t]+Error:[ \t]*([ ,a-z0-9]+)(?:[ \t]+((?:[0-9]+|at )[ \t]*.*))?$/mi` -/
def reErrorType : RTerm :=
  rseq [rsp1, rstr "Error:", rsp0,
    .group 1 (rplus (.cls false [(' ', ' '), (',', ','), ('a', 'z'), ('0', '9')])),
    .opt (rseq [rsp1, .group 2 (rseq [.alt (rplus rdig) (rstr "at "), rsp0, .star .anyCh])]),
    .eol]

/-- Build one `ErrorLogEntry` property from a matched error block
(source lines 1662–1696). -/
def errorBlockProp (caps : List (Nat × List Char)) : StorageProperty :=
  let block := hzTrim (capGet caps 1)
  let name := hzTrim (capGet caps 2)
  let value_num := hzTrim (capGet caps 3)
  let value_time := hzTrim (capGet caps 4)
  let state :=
    match rxCaps fMI reErrorState block with
    | some c => capGet c 1
    | none => []
  let (etypes_str, emore) :=
    match rxCaps fMI reErrorType block with
    | some c => (capGet c 1, capGet c 2)
    | none => ([], [])
  let eb : AtaStorageErrorBlock := {}
  let eb := { eb with
    error_num := (stringIsNumeric value_num false 0 0 uint32Hi).getD eb.error_num,
    lifetime_hours := (stringIsNumeric value_time false 0 0 uint32Hi).getD eb.lifetime_hours,
    device_state := hzTrim state,
    reported_types := (splitStr ",".data true etypes_str).map hzTrim,
    type_more_info := hzTrim emore }
  { (({ sect := .AtaErrorLog } : StorageProperty).setName name name name) with
    reported_value := block, value := .errorBlock eb }

/-- `SmartctlTextAtaParser::parse_section_data_subsection_error_log`. -/
def parseSectionDataSubsectionErrorLog (sub : List Char) : ExpVoid × List StorageProperty :=
  let pt : StorageProperty := { sect := .AtaErrorLog }
  -- Error log version
  let verProps :=
    match rxCaps fMI reErrorLogVersion sub with
    | some caps =>
      let name := hzTrim (capGet caps 1)
      let value := hzTrim (capGet caps 2)
      [{ pt.setName "ata_smart_error_log/extended/revision".data name name with
          reported_value := value,
          value := .int ((stringIsNumeric value false 0 int64Lo int64Hi).getD 0) }]
    | none => []
  -- Error log support
  let supportProps :=
    if rxTest fMI reErrorLogSupport sub then
      [{ pt.setName "_text_only/ata_smart_error_log/_not_present".data
          "Error Log not supported".data with
        displayable_name := "Warning".data,
        readable_value := "Device does not support error logging".data }]
    else []
  -- Error log entry count
  let countCaps := rxCaps fMI reErrorCount sub
  let noErrors := rxTest fMI reNoErrorsLogged sub
  let countProps :=
    if countCaps.isSome ∨ noErrors then
      let value := hzTrim (match countCaps with | some c => capGet c 1 | none => [])
      let value_num : Int :=
        if ¬ noErrors then (stringIsNumeric value false 0 int64Lo int64Hi).getD 0 else 0
      [{ pt.setName "ata_smart_error_log/extended/count".data "ATA Error Count".data with
          reported_value := value, value := .int value_num }]
    else []
  -- Individual errors
  let blockProps := (rxAllMatches fMI reErrorBlock sub).map errorBlockProp
  -- the whole subsection
  let merged := { pt.setName "ata_smart_error_log/_merged".data "SMART Error Log".data with
    reported_value := sub, value := .str sub }
  let data_found := !verProps.isEmpty || !countProps.isEmpty || !blockProps.isEmpty
  (if data_found then expOk else .error .DataError,
    verProps ++ supportProps ++ countProps ++ blockProps ++ [merged])

/-! ### Device statistics subsection (`parse_section_data_subsection_devstat`) -/

inductive DevstatFormatStyle where
  | NoFlags
  | Current
deriving DecidableEq, Repr

/-- `[ \t]*([0-9a-z]+)[ \t]+([0-9a-z=]+)[ \t]+([0-9=]+)[ \t]+([0-9=-]+)[ \t]+([A-Z=-]{3,})[ \t]+(.+)` -/
def reDevstatLine : RTerm :=
  rseq [rsp0, .group 1 (rplus (.cls false [('0', '9'), ('a', 'z')])), rsp1,
    .group 2 (rplus (.cls false [('0', '9'), ('a', 'z'), ('=', '=')])), rsp1,
    .group 3 (rplus (.cls false [('0', '9'), ('=', '=')])), rsp1,
    .group 4 (rplus (.cls false [('0', '9'), ('=', '='), ('-', '-')])), rsp1,
    .group 5 (rrep3 (.cls false [('A', 'Z'), ('=', '='), ('-', '-')])), rsp1,
    .group 6 (rplus .anyCh)]

/-- `[ \t]*([0-9a-z]+)[ \t]+([0-9a-z=]+)[ \t]+([0-9=]+)[ \t]+([0-9=~-]+)[ \t]+(.+)` -/
def reDevstatLineNoFlags : RTerm :=
  rseq [rsp0, .group 1 (rplus (.cls false [('0', '9'), ('a', 'z')])), rsp1,
    .group 2 (rplus (.cls false [('0', '9'), ('a', 'z'), ('=', '=')])), rsp1,
    .group 3 (rplus (.cls false [('0', '9'), ('=', '=')])), rsp1,
    .group 4 (rplus (.cls false [('0', '9'), ('=', '='), ('~', '~'), ('-', '-')])), rsp1,
    .group 5 (rplus .anyCh)]

/-- Should this devstat line be skipped (source lines 2194–2199)? -/
def devstatSkipLine (line : List Char) : Bool :=
  line.isEmpty ||
  rxTest fMI (rseq [.bol, rstr "Device Statistics (", .alt (rstr "GP") (rstr "SMART"),
    rstr " Log 0x04)"]) line ||
  rxTest fMI (lineStart "ATA_SMART_READ_LOG failed:") line ||
  rxTest fMI (rseq [.bol, rstr "Read Device Statistics page ", rplus .anyCh, rstr " failed"]) line ||
  rxTest fMI (rseq [.bol, rstr "Read Device Statistics pages ", rplus .anyCh, rstr " failed"]) line

/-- Build one `StatisticEntry` property from the captured columns
(source lines 2215–2261). -/
def devstatLineProp (style : DevstatFormatStyle) (line : List Char) : Option StorageProperty :=
  let parsed : Option (List Char × List Char × List Char × List Char × List Char) :=
    match style with
    | .Current =>
      (match rxFull fMI reDevstatLine line with
       | some caps =>
         some (capGet caps 1, capGet caps 2, capGet caps 4, capGet caps 5, capGet caps 6)
       | none => none)
    | .NoFlags =>
      (match rxFull fMI reDevstatLineNoFlags line with
       | some caps =>
         let value := capGet caps 4
         let (flags, value) :=
           if value ≠ [] ∧ value.getLast? = some '~' then
             ("N--".data, value.take (value.length - 1))
           else ("---".data, value)
         some (capGet caps 1, capGet caps 2, value, flags, capGet caps 5)
       | none => none)
  match parsed with
  | none => none
  | some (page, offset, value, flags, description) =>
    let st : AtaStorageStatistic := {}
    let is_header := hzTrim value = "=".data
    let st := { st with
      is_header := is_header,
      flags := if is_header then [] else hzTrim flags,
      value := if is_header then [] else hzTrim value }
    let st := { st with
      value_int := (stringIsNumeric st.value false 0 int64Lo int64Hi).getD 0,
      page := (stringIsNumeric page false 16 int64Lo int64Hi).getD 0,
      offset := (stringIsNumeric offset false 16 int64Lo int64Hi).getD 0 }
    let description := if st.is_header then hzTrim (trimOn ['='] description) else description
    let gen_name := hzTrim description
    some { (({ sect := .Statistics } : StorageProperty).setName gen_name gen_name gen_name) with
      reported_value := line, value := .statistic st }

/-- The line loop of the devstat parser, carrying the detected format. -/
def devstatLoop : List (List Char) → DevstatFormatStyle → List StorageProperty × Bool
  | [], _ => ([], false)
  | line :: rest, style =>
    if devstatSkipLine line then
      devstatLoop rest style
    else if rxTest fMI (rseq [.bol, rstr "Page", rsp1, rstr "Offset", rsp1, rstr "Size"]) line then
      let style : DevstatFormatStyle :=
        if ¬ rxTest fMI (rseq [rsp1, rstr "Flags", rsp1]) line then .NoFlags else style
      devstatLoop rest style
    else if rxTest fMI reFlagDescr line then
      devstatLoop rest style
    else
      match devstatLineProp style line with
      | some p =>
        let r := devstatLoop rest style
        (p :: r.1, true)
      | none => devstatLoop rest style

/-- `SmartctlTextAtaParser::parse_section_data_subsection_devstat`. -/
def parseSectionDataSubsectionDevstat (sub : List Char) : ExpVoid × List StorageProperty :=
  let pt : StorageProperty := { sect := .Statistics }
  let supported := ¬ rxTest fMI (rstr "Device Statistics (GP/SMART Log 0x04) not supported") sub
  let supProp := { pt.setName "ata_device_statistics/_present".data
      "Device statistics supported".data with
    value := .boolv supported }
  if ¬ supported then
    (.error .DataError, [supProp])
  else
    let r := devstatLoop (splitChar '\n' true sub) .Current
    (if r.2 then expOk else .error .DataError, supProp :: r.1)

/-! ### Data section (`parse_section_data`) -/

def apos : Char := Char.ofNat 39

/-- The continuation-block test of the merge loop (source lines 651–655):
the patterns are given without delimiters, hence case-sensitive and
anchored at the block start only. -/
def isContinuationBlock (sub : List Char) : Bool :=
  rxTest fNone (.seq .bol (rstr "  ")) sub ||
  rxTest fNone (rseq [.bol, rstr "Error ", rplus rdig]) sub ||
  rxTest fNone (.seq .bol (rstr "SCT Temperature History Version")) sub ||
  rxTest fNone (rseq [.bol, rstr "Index", rsp1]) sub ||
  rxTest fNone (.seq .bol (rstr "Read SCT Temperature History failed")) sub

/-- The merge loop of `parse_section_data` (source lines 649–664): a block
starting with a continuation marker is appended to the previous block, or
discarded with a diagnostic when no previous block exists. -/
def mergeBlocksGo : List (List Char) → List (List Char) → List (List Char)
  | [], acc => acc.reverse
  | sub :: rest, acc =>
    let sub := trimOn ['\t', '\n', '\r'] sub
    if isContinuationBlock sub then
      match acc with
      | [] => mergeBlocksGo rest []
      | b :: bs => mergeBlocksGo rest ((b ++ '\n' :: '\n' :: sub) :: bs)
    else
      mergeBlocksGo rest (sub :: acc)

def mergeBlocks (l : List (List Char)) : List (List Char) := mergeBlocksGo l []

/-- The classification loop of `parse_section_data` (source lines 668–768):
each logical subsection is sniffed by its first line(s) and dispatched;
the known ignored section kinds reset the success accumulator to `false`
(`status = false;` in the source); unknown subsections are skipped. -/
def dataSubsectionsLoop : List (List Char) → Bool → Bool × List StorageProperty
  | [], status => (status, [])
  | sub :: rest, status =>
    let sub := hzTrim sub
    let tm := fun (t : RTerm) => rxTest fMI t sub
    let ls := fun (s : String) => rxTest fMI (lineStart s) sub
    let go := fun (r : ExpVoid × List StorageProperty) =>
      let t := dataSubsectionsLoop rest (r.1.hasValue || status)
      (t.1, r.2 ++ t.2)
    if sub.isEmpty then
      dataSubsectionsLoop rest status
    else if ls "SMART overall-health self-assessment" then
      go (parseSectionDataSubsectionHealth sub)
    else if ls "General SMART Values" then
      go (parseSectionDataSubsectionCapabilities sub)
    else if ls "SMART Attributes Data Structure" then
      go (parseSectionDataSubsectionAttributes sub)
    else if ls "General Purpose Log Directory Version" ∨
        ls "General Purpose Log Directory not supported" ∨
        ls "General Purpose Logging (GPL) feature set supported" ∨
        ls "Read GP Log Directory failed" ∨
        tm (rseq [.bol, rstr "Log Directories not read due to ", .lit apos,
          rstr "-F nologdir", .lit apos, rstr " option"]) ∨
        ls "Read SMART Log Directory failed" ∨
        ls "SMART Log Directory Version" then
      go (parseSectionDataSubsectionDirectoryLog sub)
    else if ls "SMART Error Log Version" ∨
        ls "SMART Extended Comprehensive Error Log Version" ∨
        ls "Warning: device does not support Error Logging" ∨
        ls "SMART Error Log not supported" ∨
        ls "Read SMART Error Log failed" then
      go (parseSectionDataSubsectionErrorLog sub)
    else if ls "SMART Extended Comprehensive Error Log (GP Log 0x03) not supported" ∨
        tm (rseq [.bol, rstr "SMART Extended Comprehensive Error Log size ",
          .group 1 (.star .anyCh), rstr " not supported"]) ∨
        ls "Read SMART Extended Comprehensive Error Log failed" then
      dataSubsectionsLoop rest false
    else if ls "SMART Self-test log" ∨
        ls "SMART Extended Self-test Log Version" ∨
        ls "Warning: device does not support Self Test Logging" ∨
        ls "Read SMART Self-test Log failed" ∨
        ls "SMART Self-test Log not supported" then
      go (parseSectionDataSubsectionSelftestLog sub)
    else if ls "SMART Extended Self-test Log (GP Log 0x07) not supported" ∨
        tm (rseq [.bol, rstr "SMART Extended Self-test Log size ",
          rplus (.cls false [('0', '9'), ('-', '-')]), rstr " not supported"]) ∨
        ls "Read SMART Extended Self-test Log failed" then
      dataSubsectionsLoop rest false
    else if ls "SMART Selective self-test log data structure" ∨
        ls "Device does not support Selective Self Tests/Logging" ∨
        ls "Selective Self-tests/Logging not supported" ∨
        ls "Read SMART Selective Self-test Log failed" then
      go (parseSectionDataSubsectionSelectiveSelftestLog sub)
    else if ls "SCT Status Version" ∨
        ls "SCT Commands not supported" ∨
        ls "SCT Data Table command not supported" ∨
        ls "Error unknown SCT Temperature History Format Version" ∨
        ls "Another SCT command is executing, abort Read Data Table" ∨
        ls "Warning: device does not support SCT Commands" then
      go (parseSectionDataSubsectionScttempLog sub)
    else if ls "SCT Error Recovery Control" ∨
        ls "SCT Error Recovery Control command not supported" ∨
        ls "SCT (Get) Error Recovery Control command failed" ∨
        ls "Another SCT command is executing, abort Error Recovery Control" ∨
        ls "Warning: device does not support SCT (Get) Error Recovery Control" then
      go (parseSectionDataSubsectionSctercLog sub)
    else if tm (rseq [.bol, rstr "Device Statistics (", rplus (rnchs ")"), .lit ')', .eol]) ∨
        tm (rseq [.bol, rstr "Device Statistics (", rplus (rnchs ")"), .lit ')',
          rstr " not supported"]) ∨
        tm (rseq [.bol, rstr "Read Device Statistics page ", rplus .anyCh, rstr " failed"]) then
      go (parseSectionDataSubsectionDevstat sub)
    else if tm (rseq [.bol, rstr "Device Statistics (", rplus (rnchs ")"), .lit ')',
        rstr " supported pages"]) then
      dataSubsectionsLoop rest false
    else if ls "SATA Phy Event Counters" ∨
        ls "SATA Phy Event Counters (GP Log 0x11) not supported" ∨
        tm (rseq [.bol, rstr "SATA Phy Event Counters with ",
          rplus (.cls false [('0', '9'), ('-', '-')]), rstr " sectors not supported"]) ∨
        ls "Read SATA Phy Event Counters failed" then
      go (parseSectionDataSubsectionSataphy sub)
    else
      dataSubsectionsLoop rest status

/-- `SmartctlTextAtaParser::parse_section_data`: splits the body into
blank-line-delimited blocks, re-merges continuations, dispatches each
subsection, and returns `NoSubsectionsParsed` as its final result value. -/
def parseSectionData (body : List Char) : ExpVoid × List StorageProperty :=
  let split_subsections := splitStr ['\n', '\n'] true body
  let subsections := mergeBlocks split_subsections
  let t := dataSubsectionsLoop subsections false
  (.error .NoSubsectionsParsed, t.2)

/-! ### Section dispatch and top-level parse (`parse_section`, `parse`) -/

/-- `SmartctlTextAtaParser::parse_section` (the second READ SMART DATA test
is unreachable in the source and is kept as written). -/
def parseSection (header body : List Char) : ExpVoid × List StorageProperty :=
  if rxTest fMI (rstr "START OF INFORMATION SECTION") header then
    parseSectionInfo body
  else if rxTest fMI (rstr "START OF READ SMART DATA SECTION") header then
    parseSectionData body
  else if rxTest fMI (rstr "START OF READ SMART DATA SECTION") header then
    (expOk, [])
  else if rxTest fMI (rstr "START OF ENABLE/DISABLE COMMANDS SECTION") header then
    (expOk, [])
  else if rxTest fMI (rstr "START OF OFFLINE IMMEDIATE AND SELF-TEST SECTION") header then
    (expOk, [])
  else
    (.error .UnknownSection, [])

/-- The `=== START` section-splitting loop of `parse` (source lines
247–269): each banner line is the section header, the text up to the next
banner is the body. -/
def findSectionsGo (s : List Char) : Nat → Nat → List (List Char × List Char)
  | 0, _ => []
  | fuel + 1, pos =>
    match strFind s "=== START".data pos with
    | none => []
    | some start =>
      let tmp := strFind s ['\n'] start
      (match tmp with
       | none =>
         let header := hzTrim (s.drop start)
         [(header, [])]
       | some t =>
         let header := hzTrim ((s.drop start).take (t - start))
         let send := strFind s "=== START".data t
         let bodyEnd := match send with | none => s.length | some e => e
         let body := hzTrim ((s.drop t).take (bodyEnd - t))
         (header, body) ::
           (match send with
            | none => []
            | some e => findSectionsGo s fuel e))

def findSections (s : List Char) : List (List Char × List Char) :=
  findSectionsGo s (s.length + 1) 0

/-- The section loop of `parse` (source lines 252–269): every section is
parsed; the accumulator records whether at least one `parse_section` call
succeeded. -/
def sectionsLoop : List (List Char × List Char) → Bool → Bool × List StorageProperty
  | [], status => (status, [])
  | hb :: rest, status =>
    let r := parseSection hb.1 hb.2
    let t := sectionsLoop rest (r.1.hasValue || status)
    (t.1, r.2 ++ t.2)

/-- The two version properties emitted by `parse` (source lines 212–227). -/
def versionProps (version version_full : List Char) : List StorageProperty :=
  [{ (({ sect := .Info } : StorageProperty).setName
      "smartctl/version/_merged".data "Smartctl Version".data) with
    reported_value := version, value := .str version },
   { (({ sect := .Info } : StorageProperty).setName
      "smartctl/version/_merged_full".data "Smartctl Version".data) with
    reported_value := version_full, value := .str version_full }]

/-- The hidden full-output property (source lines 234–242). -/
def outputProp (smartctl_output : List Char) : StorageProperty :=
  { (({} : StorageProperty).setName "smartctl/output".data "Smartctl Text Output".data) with
    reported_value := smartctl_output,
    value := .str smartctl_output,
    show_in_ui := false }

/-- `SmartctlTextAtaParser::parse`: the full pipeline — line-ending
unification and trim, empty-input gate, normalization with checksum-warning
extraction, version extraction and gates, the hidden raw-output property,
and the banner-section loop with the `NoSection` overall-failure rule. -/
def parse (smartctl_output : List Char) : ExpVoid × List StorageProperty :=
  let s := hzTrim (anyToUnix smartctl_output)
  if s.isEmpty then
    (.error .EmptyInput, [])
  else
    let checksumProps := (checksumSectionNames s).map appGetChecksumErrorProperty
    let s := normalizeText s
    match parseVersionText s with
    | none => (.error .NoVersion, checksumProps)
    | some vv =>
      let props := checksumProps ++ versionProps vv.1 vv.2
      if ¬ checkFormatSupportedText vv.1 then
        (.error .IncompatibleVersion, props)
      else
        let props := props ++ [outputProp smartctl_output]
        let t := sectionsLoop (findSections s) false
        (if t.1 then expOk else .error .NoSection, props ++ t.2)

/-! ## Helper lemmas -/

theorem rxSearch_eq_none_of_not_test {fl : RxFlags} {t : RTerm} {s : List Char}
    (h : rxTest fl t s = false) : rxSearch fl t s = none := by
  unfold rxTest at h
  cases hs : rxSearch fl t s with
  | none => rfl
  | some v => rw [hs] at h; simp at h

theorem rxReplaceAll_no_match (fl : RxFlags) (t : RTerm) (repl s : List Char)
    (h : rxTest fl t s = false) : rxReplaceAll fl t repl s = s := by
  have hn : searchGo fl t (s.length + 1) none s [] = none :=
    rxSearch_eq_none_of_not_test h
  unfold rxReplaceAll
  rw [replaceGo, hn]

theorem condReplace_no_match (t : RTerm) (mk : List Char → List Char) (s : List Char)
    (h : rxTest fMI t s = false) : condReplace t mk s = s := by
  have hn : rxSearch fMI t s = none := rxSearch_eq_none_of_not_test h
  unfold condReplace
  rw [hn]

theorem sectionsLoop_status (l : List (List Char × List Char)) (st : Bool) :
    (sectionsLoop l st).1 = ((l.any fun hb => (parseSection hb.1 hb.2).1.hasValue) || st) := by
  induction l generalizing st with
  | nil => simp [sectionsLoop]
  | cons hb rest ih =>
    show (sectionsLoop rest ((parseSection hb.1 hb.2).1.hasValue || st)).1 = _
    rw [ih, List.any_cons]
    cases (parseSection hb.1 hb.2).1.hasValue <;>
      cases (rest.any fun hb => (parseSection hb.1 hb.2).1.hasValue) <;> cases st <;> rfl

/-- For a seconds-typed property in the Capabilities section, the internal
capabilities pass succeeds and preserves the property's value. -/
theorem internalCapabilities_seconds (p : StorageProperty) (n : Int)
    (hs : p.sect = .Capabilities) (hv : p.value = .seconds n) :
    (parseSectionDataInternalCapabilities p).1.hasValue = true ∧
      (parseSectionDataInternalCapabilities p).2.1.value = .seconds n := by
  unfold parseSectionDataInternalCapabilities
  rw [hs]
  rw [if_neg (fun h => h rfl)]
  simp only [isCapabilityValue, isSecondsValue, hv, Bool.false_eq_true, if_false,
    ite_false, ite_true, if_true]
  split
  · exact ⟨rfl, hv⟩
  · refine ⟨rfl, ?_⟩
    repeat' split
    all_goals first | exact hv | rfl

/-! ## Claims -/

/-- C1: for every data-section body, `parse_section_data` returns the
`NoSubsectionsParsed` error as its final result value, regardless of the
subsection dispatch outcomes — the success accumulator is computed by
`dataSubsectionsLoop` but does not affect the returned value. -/
theorem c1_data_section_returns_fixed_failure (body : List Char) :
    (parseSectionData body).1 = Except.error SmartctlParserError.NoSubsectionsParsed := rfl

/-- C4: an input that is empty after line-ending unification and trimming
fails with `EmptyInput` and emits no properties. -/
theorem c4_empty_input (input : List Char) (h : hzTrim (anyToUnix input) = []) :
    parse input = (Except.error SmartctlParserError.EmptyInput, []) := by
  unfold parse
  rw [h]
  rfl

theorem c4_empty_input_witness :
    hzTrim (anyToUnix "  \r\n\t ".data) = [] ∧
      parse "  \r\n\t ".data = (Except.error SmartctlParserError.EmptyInput, []) :=
  ⟨by decide, c4_empty_input "  \r\n\t ".data (by decide)⟩

/-- C5 (counterexample): normalization is not idempotent — a text consisting
of the not-supported-Error-Logging warning line re-matches the blank-line
insertion pattern after normalization, so a second run changes the text
again. -/
theorem c5_not_idempotent_counterexample :
    normalizeText (normalizeText "Warning: device does not support Error Logging".data) ≠
      normalizeText "Warning: device does not support Error Logging".data := by decide

/-- C5 (amended): re-running the Input Normalizer is a no-op on any text in
which none of the rewrite patterns (still) occurs; in particular on
normalized text free of the four not-supported warning lines. -/
theorem c5_normalization_fixpoint (s : List Char) (h : normPatternOccurs s = false) :
    normalizeText s = s := by
  simp only [normPatternOccurs, Bool.or_eq_false_iff] at h
  obtain ⟨⟨⟨⟨⟨⟨⟨⟨⟨⟨⟨⟨⟨h1, h2⟩, h3⟩, h4⟩, h5⟩, h6⟩, h7⟩, h8⟩, h9⟩, h10⟩, h11⟩, h12⟩, h13⟩, h14⟩ := h
  simp only [normalizeText]
  rw [rxReplaceAll_no_match fMI reChecksum [] s h1,
    rxReplaceAll_no_match fMI reSamsung [] s h2,
    condReplace_no_match reAtaErrCount _ s h3,
    condReplace_no_match reWarnErrLog _ s h4,
    condReplace_no_match reWarnSelftestLog _ s h5,
    condReplace_no_match reWarnSelective _ s h6,
    condReplace_no_match reWarnSct _ s h7,
    condReplace_no_match reDelReadLogExt _ s h8,
    condReplace_no_match reDelWriteLog _ s h9,
    condReplace_no_match reDelReadSctStatus _ s h10,
    condReplace_no_match reDelUnknownSctVer _ s h11,
    condReplace_no_match reDelReadSctData _ s h12,
    condReplace_no_match reDelWriteSctData _ s h13,
    condReplace_no_match reDelUnexpectedSct _ s h14]

theorem c5_normalization_fixpoint_witness :
    normPatternOccurs "hello world".data = false ∧
      normalizeText "hello world".data = "hello world".data :=
  ⟨by decide, c5_normalization_fixpoint "hello world".data (by decide)⟩

/-- Helper for C2 and C3: the result of `parse` after the three gates. -/
theorem parse_result_after_gates (input v vf : List Char)
    (h1 : (hzTrim (anyToUnix input)).isEmpty = false)
    (h2 : parseVersionText (normalizeText (hzTrim (anyToUnix input))) = some (v, vf))
    (h3 : checkFormatSupportedText v = true) :
    (parse input).1 =
      (if (findSections (normalizeText (hzTrim (anyToUnix input)))).any
          (fun hb => (parseSection hb.1 hb.2).1.hasValue)
       then expOk else Except.error SmartctlParserError.NoSection) := by
  simp only [parse]
  rw [h1, h2]
  simp only [Bool.false_eq_true, if_false, ite_false, h3, not_true_eq_false]
  rw [sectionsLoop_status]
  rw [Bool.or_false]

/-- C2: for inputs passing the empty-input, version-extraction and
format-compatibility gates, `parse` fails with `NoSection` iff no banner
section's `parse_section` call succeeded, and succeeds as soon as one
section parses — recoverable `UnknownSection` results notwithstanding. -/
theorem c2_no_section_iff (input v vf : List Char)
    (h1 : (hzTrim (anyToUnix input)).isEmpty = false)
    (h2 : parseVersionText (normalizeText (hzTrim (anyToUnix input))) = some (v, vf))
    (h3 : checkFormatSupportedText v = true) :
    ((parse input).1 = Except.error SmartctlParserError.NoSection ↔
      ∀ hb ∈ findSections (normalizeText (hzTrim (anyToUnix input))),
        (parseSection hb.1 hb.2).1.hasValue = false) ∧
    ((∃ hb ∈ findSections (normalizeText (hzTrim (anyToUnix input))),
        (parseSection hb.1 hb.2).1.hasValue = true) →
      (parse input).1 = Except.ok ()) := by
  have hp := parse_result_after_gates input v vf h1 h2 h3
  constructor
  · constructor
    · intro h hb hmem
      cases hq : (parseSection hb.1 hb.2).1.hasValue with
      | false => rfl
      | true =>
        have ha : ((findSections (normalizeText (hzTrim (anyToUnix input)))).any
            (fun hb => (parseSection hb.1 hb.2).1.hasValue)) = true :=
          List.any_eq_true.mpr ⟨hb, hmem, hq⟩
        rw [ha, if_pos rfl] at hp
        rw [hp] at h
        exact absurd h (by simp [expOk])
    · intro hall
      have ha : ((findSections (normalizeText (hzTrim (anyToUnix input)))).any
          (fun hb => (parseSection hb.1 hb.2).1.hasValue)) = false := by
        cases ha : ((findSections (normalizeText (hzTrim (anyToUnix input)))).any
            (fun hb => (parseSection hb.1 hb.2).1.hasValue)) with
        | false => rfl
        | true =>
          obtain ⟨x, hx, hpx⟩ := List.any_eq_true.mp ha
          rw [hall x hx] at hpx
          exact absurd hpx (by simp)
      rw [ha] at hp
      simpa using hp
  · rintro ⟨hb, hmem, hv⟩
    have ha : ((findSections (normalizeText (hzTrim (anyToUnix input)))).any
        (fun hb => (parseSection hb.1 hb.2).1.hasValue)) = true :=
      List.any_eq_true.mpr ⟨hb, hmem, hv⟩
    rw [ha, if_pos rfl] at hp
    exact hp

theorem c2_no_section_iff_witness :
    ((parse "smartctl 6.5 test\n=== START OF INFORMATION SECTION ===\nDevice Model: X\n=== START OF FOO SECTION ===\njunk".data).1 =
        Except.error SmartctlParserError.NoSection ↔
      ∀ hb ∈ findSections (normalizeText (hzTrim (anyToUnix
          "smartctl 6.5 test\n=== START OF INFORMATION SECTION ===\nDevice Model: X\n=== START OF FOO SECTION ===\njunk".data))),
        (parseSection hb.1 hb.2).1.hasValue = false) ∧
    ((∃ hb ∈ findSections (normalizeText (hzTrim (anyToUnix
          "smartctl 6.5 test\n=== START OF INFORMATION SECTION ===\nDevice Model: X\n=== START OF FOO SECTION ===\njunk".data))),
        (parseSection hb.1 hb.2).1.hasValue = true) →
      (parse "smartctl 6.5 test\n=== START OF INFORMATION SECTION ===\nDevice Model: X\n=== START OF FOO SECTION ===\njunk".data).1 =
        Except.ok ()) :=
  c2_no_section_iff _ "6.5".data "smartctl 6.5 test".data (by decide) (by decide) (by decide)

/-- C3 (counterexample): for an all-whitespace input `parse` fails with
`EmptyInput` and the accumulator holds no property at all — in particular
no `smartctl/output` property, contradicting the claim's
"regardless of ... any failure kind". -/
theorem c3_output_counterexample :
    (parse " ".data).1 = Except.error SmartctlParserError.EmptyInput ∧
      ¬ ∃ p ∈ (parse " ".data).2, p.generic_name = "smartctl/output".data ∧
        p.show_in_ui = false ∧ p.value = PropValue.str " ".data := by
  constructor
  · decide
  · decide

/-- C3 (amended): for every input passing the empty-input,
version-extraction and format-compatibility gates, the accumulator contains
a hidden `smartctl/output` property whose string value is the full raw
input text — whether the section phase then succeeds or fails. -/
theorem c3_output_retained (input v vf : List Char)
    (h1 : (hzTrim (anyToUnix input)).isEmpty = false)
    (h2 : parseVersionText (normalizeText (hzTrim (anyToUnix input))) = some (v, vf))
    (h3 : checkFormatSupportedText v = true) :
    ∃ p ∈ (parse input).2, p.generic_name = "smartctl/output".data ∧
      p.show_in_ui = false ∧ p.value = PropValue.str input := by
  refine ⟨outputProp input, ?_, rfl, rfl, rfl⟩
  simp only [parse]
  rw [h1, h2]
  simp only [Bool.false_eq_true, if_false, ite_false, h3, not_true_eq_false]
  simp [List.mem_append]

theorem c3_output_retained_witness :
    ∃ p ∈ (parse "smartctl 6.5 version line\n=== START OF FOO SECTION ===\nx".data).2,
      p.generic_name = "smartctl/output".data ∧ p.show_in_ui = false ∧
        p.value = PropValue.str "smartctl 6.5 version line\n=== START OF FOO SECTION ===\nx".data :=
  c3_output_retained _ "6.5".data "smartctl 6.5 version line".data
    (by decide) (by decide) (by decide)

/-- C6: the brief attribute-table format is selected by a header row with
`ATTRIBUTE_NAME` but without `WHEN_FAILED`, and the documented input line
yields an attribute record with id 194, value 222, worst 222, threshold 0,
failure time `None`, raw value text `27 (Min/Max 12/48)` and class `OldAge`
(no `P` in the flag string). -/
theorem c6_attribute_brief_line :
    (parseSectionDataSubsectionAttributes ("SMART Attributes Data Structure revision number: 16\nVendor Specific SMART Attributes with Thresholds:\nID# ATTRIBUTE_NAME          FLAGS    VALUE WORST THRESH FAIL RAW_VALUE\n194 Temperature_Celsius     -O----   222   222   000    -    27 (Min/Max 12/48)").data).1 = expOk ∧
    (∃ p ∈ (parseSectionDataSubsectionAttributes ("SMART Attributes Data Structure revision number: 16\nVendor Specific SMART Attributes with Thresholds:\nID# ATTRIBUTE_NAME          FLAGS    VALUE WORST THRESH FAIL RAW_VALUE\n194 Temperature_Celsius     -O----   222   222   000    -    27 (Min/Max 12/48)").data).2,
      p.value = PropValue.attr
        { id := 194, flag := "-O----".data, value := some 222, worst := some 222,
          threshold := some 0, attr_type := .OldAge, update_type := .Always,
          when_failed := .None, raw_value := "27 (Min/Max 12/48)".data,
          raw_value_int := 27 }) ∧
    (parseAttrLine .Brief
        "194 Temperature_Celsius     -O----   222   222   000    -    27 (Min/Max 12/48)".data).isSome = true := by
  refine ⟨by decide, by decide, by decide⟩

/-- C7: the self-test log row
`# 1  Extended offline    Completed without error       00%     43116         -`
yields a `SelfTestEntry` with test number 1, remaining percent 0, lifetime
hours 43116, LBA placeholder `-` and status `CompletedNoError`. -/
theorem c7_selftest_row :
    (parseSectionDataSubsectionSelftestLog ("SMART Self-test log structure revision number 1\nNum  Test_Description    Status                  Remaining  LifeTime(hours)  LBA_of_first_error\n# 1  Extended offline    Completed without error       00%     43116         -").data).1 = expOk ∧
    ∃ p ∈ (parseSectionDataSubsectionSelftestLog ("SMART Self-test log structure revision number 1\nNum  Test_Description    Status                  Remaining  LifeTime(hours)  LBA_of_first_error\n# 1  Extended offline    Completed without error       00%     43116         -").data).2,
      p.generic_name = "ata_smart_self_test_log/entry/1".data ∧
      p.value = PropValue.selftest
        { test_num := 1, type := "Extended offline".data,
          status_str := "Completed without error".data, status := .CompletedNoError,
          remaining_percent := 0, lifetime_hours := 43116,
          lba_of_first_error := "-".data } := by
  refine ⟨by decide, by decide⟩

/-- Helper for C8: for a seconds-typed Capabilities property, the emitted
block result keeps a property with that duration value. -/
theorem exists_seconds_in_capResult (p : StorageProperty) (n : Int)
    (hs : p.sect = .Capabilities) (hv : p.value = .seconds n) :
    ∃ q ∈ (parseSectionDataInternalCapabilities p).2.2 ++
        (if (parseSectionDataInternalCapabilities p).1.hasValue
         then [(parseSectionDataInternalCapabilities p).2.1] else []),
      q.value = PropValue.seconds n := by
  obtain ⟨h1, h2⟩ := internalCapabilities_seconds p n hs hv
  rw [h1]
  simp only [ite_true, if_true]
  exact ⟨_, List.mem_append_right _ (List.mem_singleton_self _), h2⟩

/-- C8: in the Capabilities parser a parenthesized numeric value followed by
`minutes.` becomes a duration property of the value multiplied by 60, a
`seconds.` value is stored unmultiplied, and the documented short
self-test polling block yields a 120-second duration property with the
short-polling generic identifier. -/
theorem c8_capabilities_time_units :
    (∀ (block : List Char) (caps : List (Nat × List Char)),
      rxFull fM reCapBlock (hzTrim block) = some caps →
      eraseRight (capFlatten (capGet caps 3)) ['.'] = "minutes".data →
      ∃ p ∈ (capProcessBlock block).1,
        p.value = PropValue.seconds
          (((stringIsNumeric (hzTrim (capGet caps 2)) false 0 int64Lo int64Hi).getD (-1)) * 60)) ∧
    (∀ (block : List Char) (caps : List (Nat × List Char)),
      rxFull fM reCapBlock (hzTrim block) = some caps →
      eraseRight (capFlatten (capGet caps 3)) ['.'] = "seconds".data →
      ∃ p ∈ (capProcessBlock block).1,
        p.value = PropValue.seconds
          ((stringIsNumeric (hzTrim (capGet caps 2)) false 0 int64Lo int64Hi).getD (-1))) ∧
    (∃ p ∈ (capProcessBlock "Short self-test routine\nrecommended polling time: \t ( 2) minutes.".data).1,
      p.value = PropValue.seconds 120 ∧
      p.generic_name = "ata_smart_data/self_test/polling_minutes/short".data) := by
  refine ⟨?_, ?_, ?_⟩
  · intro block caps hcaps hmin
    simp only [capProcessBlock, hcaps]
    simp only [hmin, true_or, or_true, ite_true, if_true]
    exact exists_seconds_in_capResult _ _ rfl rfl
  · intro block caps hcaps hsec
    simp only [capProcessBlock, hcaps]
    simp only [hsec, true_or, or_true, ite_true, if_true]
    rw [if_neg (by decide)]
    exact exists_seconds_in_capResult _ _ rfl rfl
  · decide

theorem c8_capabilities_time_units_witness :
    rxFull fM reCapBlock
        (hzTrim "Short self-test routine\nrecommended polling time: \t ( 2) minutes.".data) =
      some [(3, "minutes.".data), (2, " 2".data),
        (1, "Short self-test routine\nrecommended polling time".data)] ∧
    eraseRight (capFlatten "minutes.".data) ['.'] = "minutes".data ∧
    ∃ p ∈ (capProcessBlock "Short self-test routine\nrecommended polling time: \t ( 2) minutes.".data).1,
      p.value = PropValue.seconds
        (((stringIsNumeric (hzTrim " 2".data) false 0 int64Lo int64Hi).getD (-1)) * 60) :=
  ⟨by decide, by decide,
    c8_capabilities_time_units.1
      "Short self-test routine\nrecommended polling time: \t ( 2) minutes.".data
      [(3, "minutes.".data), (2, " 2".data),
        (1, "Short self-test routine\nrecommended polling time".data)]
      (by decide) (by decide)⟩

/-- C9: the health line with value `PASSED` becomes a boolean-true property
with readable value `PASSED`; the same line with any other reported value
becomes boolean-false with readable value `FAILED`. -/
theorem c9_health_boolean :
    (∃ p ∈ (parseSectionDataSubsectionHealth
        "SMART overall-health self-assessment test result: PASSED".data).2,
      p.value = PropValue.boolv true ∧ p.readable_value = "PASSED".data ∧
        p.reported_value = "PASSED".data) ∧
    (∀ name v : List Char, v ≠ "PASSED".data →
      (healthPropOfValue name v).value = PropValue.boolv false ∧
        (healthPropOfValue name v).readable_value = "FAILED".data) := by
  constructor
  · decide
  · intro name v hv
    unfold healthPropOfValue
    refine ⟨?_, ?_⟩
    · simp [decide_eq_false hv]
    · simp [if_neg hv]

theorem c9_health_boolean_witness :
    ("FAILURE!".data ≠ "PASSED".data) ∧
      (healthPropOfValue "SMART overall-health self-assessment test result".data
          "FAILURE!".data).value = PropValue.boolv false ∧
      (healthPropOfValue "SMART overall-health self-assessment test result".data
          "FAILURE!".data).readable_value = "FAILED".data :=
  ⟨by decide,
    (c9_health_boolean.2 "SMART overall-health self-assessment test result".data
      "FAILURE!".data (by decide)).1,
    (c9_health_boolean.2 "SMART overall-health self-assessment test result".data
      "FAILURE!".data (by decide)).2⟩

/-- C10: a first blank-line-delimited block that begins with a continuation
marker and has no previous block to merge into is discarded: the merged
subsection list — and hence the dispatch outcome — is exactly that of the
remaining blocks. -/
theorem c10_orphan_continuation_dropped (b : List Char) (rest : List (List Char))
    (h : isContinuationBlock (trimOn ['\t', '\n', '\r'] b) = true) :
    mergeBlocks (b :: rest) = mergeBlocks rest ∧
      dataSubsectionsLoop (mergeBlocks (b :: rest)) false =
        dataSubsectionsLoop (mergeBlocks rest) false := by
  have hm : mergeBlocks (b :: rest) = mergeBlocks rest := by
    unfold mergeBlocks
    simp only [mergeBlocksGo, h, if_true, ite_true]
  exact ⟨hm, by rw [hm]⟩

theorem c10_orphan_continuation_dropped_witness :
    isContinuationBlock (trimOn ['\t', '\n', '\r'] "Error 5 occurred at disk".data) = true ∧
      mergeBlocks ["Error 5 occurred at disk".data] = mergeBlocks [] :=
  ⟨by decide,
    (c10_orphan_continuation_dropped "Error 5 occurred at disk".data [] (by decide)).1⟩

end GsmartModel
